import Mathlib

/-!
Shallow embedding of `hivematrix-brainhair`:
  * `src/ai_tools/manage_knowledge.py` — a CLI over the KnowledgeTree HTTP
    API.  Every HTTP exchange is mediated by a deterministic response oracle
    (`Env`); each translated function returns the list of observable events
    (requests issued, approval prompts, printed lines) together with its
    Python return value.
  * `src/app/__init__.py` — the Flask bootstrap module, embedded as a
    function from its environment to an initialisation trace and an
    `Except` mirroring the `raise ValueError`.

Python truthiness of optional strings (`None` and `""` are falsy) is made
explicit through `strTruthy`; f-string rendering of a possibly-`None` value
through `pyStr`.
-/

/-- Body of a `POST {core}/service-token` response: the `token` field of the
parsed JSON (`none` when the key is missing, which in Python raises a
`KeyError` that the surrounding `except` catches). -/
structure TokenBody where
  token : Option String
deriving DecidableEq, Repr

/-- An HTTP exchange as the client observes it: a status code with a parsed
body, or an exception raised inside the `try` block (transport error or
JSON-decoding error), carrying the message that `ERROR: {e}` would print. -/
inductive HResp (β : Type) where
  | resp (status : Nat) (body : β)
  | exn (msg : String)
deriving DecidableEq, Repr

/-- One entry of a `/api/search` result list (fields read by `main`:
`name`, `id` required; `is_folder`, `folder_path` read with `.get`). -/
structure SearchItem where
  name : String
  id : String
  is_folder : Bool
  folder_path : Option String
deriving DecidableEq, Repr

/-- The `current_node` object of a browse response; `id` and `name` are read
with `.get`, hence optional. -/
structure CNode where
  id : Option String
  name : Option String
deriving DecidableEq, Repr

/-- A folder summary in a browse response; `main` reads its required `name` field. -/
structure CatItem where
  id : String
  name : String
deriving DecidableEq, Repr

/-- An article summary in a browse response; `main` reads its required
`title` and `id` fields. -/
structure ArtItem where
  id : String
  title : String
deriving DecidableEq, Repr

/-- Body of a `/api/browse` response. -/
structure BrowseBody where
  current_node : Option CNode
  categories : List CatItem
  articles : List ArtItem
deriving DecidableEq, Repr

/-- Body of a `POST /api/node` response: `id` on 200, `existing_id` on 409,
raw `text` used in diagnostics. -/
structure CreateBody where
  id : Option String
  existing_id : Option String
  text : String
deriving DecidableEq, Repr

/-- Body of a `PUT`/`DELETE /api/node/{id}` response; only its raw `text`
is ever read (for diagnostics). -/
structure TextBody where
  text : String
deriving DecidableEq, Repr

/-- Body of a `GET /api/node/{id}` response (fields read with `.get`:
`name`, `is_folder`). -/
structure NodeBody where
  name : Option String
  is_folder : Bool
deriving DecidableEq, Repr

/-- The JSON payload of a `PUT /api/node/{id}` request, mirroring the
`update_data` dict: a `name` and/or `content` key. -/
structure UpdatePayload where
  name : Option String
  content : Option String
deriving DecidableEq, Repr

/-- Python truthiness of an optional string: `None` and `""` are falsy. -/
def strTruthy : Option String → Bool
  | none => false
  | some s => !(s == "")

/-- Python f-string rendering of a possibly-`None` string. -/
def pyStr : Option String → String
  | none => "None"
  | some s => s

/-- Python startswith applied to the path separator: true iff the first
character of `s` is `/`. -/
def startsWithSlash (s : String) : Bool :=
  match s.data with
  | ch :: _ => ch == '/'
  | [] => false

/-- Response oracle: for each endpoint, the response the remote services
would give to a request with the stated arguments, together with the
approval-gate decision function.  A single run of the tool queries each
argument tuple at most a bounded number of times, so a deterministic oracle
captures every reachable behaviour. -/
structure Env where
  serviceToken : String → HResp TokenBody
  searchApi : String → HResp (List SearchItem)
  browseApi : String → HResp BrowseBody
  createApi : String → String → Bool → HResp CreateBody
  putApi : String → UpdatePayload → HResp TextBody
  deleteApi : String → HResp TextBody
  getApi : String → HResp NodeBody
  /-- Modelled from the spec: the CLI imports `request_approval` from
  `approval_helper`, whose source is not among the provided files; per
  spec §4.4 it presents a summary string and a label-to-value mapping and
  blocks until a boolean decision is produced, modelled here as a decision
  function of the presented request. -/
  approve : String → List (String × String) → Bool

/-- Observable events of one CLI run: HTTP requests as they are issued,
approval prompts with their decision, and printed lines. -/
inductive Event where
  | tokenReq (target : String)
  | searchReq (query : String)
  | browseReq (path : String)
  | createReq (parent_id name : String) (is_folder : Bool)
  | putReq (node_id : String) (payload : UpdatePayload)
  | deleteReq (node_id : String)
  | getReq (node_id : String)
  | approvalReq (summary : String) (granted : Bool)
  | out (line : String)
deriving DecidableEq, Repr

/-- `get_service_token` (manage_knowledge.py:59-75): POST to
`{core}/service-token`; returns the `token` field on 200, `None` on any
non-200 status (silently) or on an exception (with a printed diagnostic,
including the `KeyError` when a 200 body lacks the `token` key). -/
def get_service_token (env : Env) (target_service : String) :
    List Event × Option String :=
  match env.serviceToken target_service with
  | .resp status body =>
      if status == 200 then
        match body.token with
        | some t => ([.tokenReq target_service], some t)
        | none =>
            ([.tokenReq target_service,
              .out "ERROR: Could not get service token: \x27token\x27"], none)
      else ([.tokenReq target_service], none)
  | .exn m =>
      ([.tokenReq target_service,
        .out ("ERROR: Could not get service token: " ++ m)], none)

/-- `search_knowledge` (manage_knowledge.py:78-104). -/
def search_knowledge (env : Env) (query : String) :
    List Event × List SearchItem :=
  let (t1, token) := get_service_token env "knowledgetree"
  if !(strTruthy token) then
    (t1 ++ [.out "ERROR: Could not get service token for KnowledgeTree"], [])
  else
    match env.searchApi query with
    | .resp status body =>
        if status == 200 then (t1 ++ [.searchReq query], body)
        else
          (t1 ++ [.searchReq query,
                  .out ("ERROR: Search failed: " ++ toString status)], [])
    | .exn m => (t1 ++ [.searchReq query, .out ("ERROR: " ++ m)], [])

/-- `browse_knowledge` (manage_knowledge.py:107-132). -/
def browse_knowledge (env : Env) (path : String) :
    List Event × Option BrowseBody :=
  let (t1, token) := get_service_token env "knowledgetree"
  if !(strTruthy token) then
    (t1 ++ [.out "ERROR: Could not get service token for KnowledgeTree"], none)
  else
    match env.browseApi path with
    | .resp status body =>
        if status == 200 then (t1 ++ [.browseReq path], some body)
        else
          (t1 ++ [.browseReq path,
                  .out ("ERROR: Browse failed: " ++ toString status)], none)
    | .exn m => (t1 ++ [.browseReq path, .out ("ERROR: " ++ m)], none)

/-- `get_node_id_from_path` (manage_knowledge.py:135-152): the Path
Resolver.  `/` and `root` short-circuit to the well-known identifier
`"root"`; any other path is resolved by one browse call whose
`current_node.id` is returned (Python truthiness: a missing or empty
identifier falls through to the not-found diagnostic). -/
def get_node_id_from_path (env : Env) (path : String) :
    List Event × Option String :=
  if path == "/" || path == "root" then ([], some "root")
  else
    let (t1, br) := browse_knowledge env path
    match br with
    | none => (t1 ++ [.out ("ERROR: Could not browse to path: " ++ path)], none)
    | some body =>
        match body.current_node with
        | some cn =>
            match cn.id with
            | some i =>
                if i == "" then
                  (t1 ++ [.out ("ERROR: Path exists but no node ID returned: "
                                ++ path)], none)
                else (t1, some i)
            | none =>
                (t1 ++ [.out ("ERROR: Path exists but no node ID returned: "
                              ++ path)], none)
        | none =>
            (t1 ++ [.out ("ERROR: Path exists but no node ID returned: "
                          ++ path)], none)

/-- `create_node` (manage_knowledge.py:155-227).  Returns the Python return
value: `none` for `False`, `some id` for a returned identifier (both in the
total-success case and in the partial-success case where the follow-up
content update failed). -/
def create_node (env : Env) (parent_path name content : String)
    (is_folder : Bool) : List Event × Option String :=
  let (t1, token) := get_service_token env "knowledgetree"
  if !(strTruthy token) then
    (t1 ++ [.out "ERROR: Could not get service token for KnowledgeTree"], none)
  else
    let (t2, pid) := get_node_id_from_path env parent_path
    if !(strTruthy pid) then
      (t1 ++ t2 ++ [.out ("ERROR: Could not find parent path: " ++ parent_path)],
       none)
    else
      let parent_id := pyStr pid
      match env.createApi parent_id name is_folder with
      | .resp status body =>
          if status == 200 then
            match body.id with
            | some new_id =>
                if new_id == "" then
                  (t1 ++ t2 ++ [.createReq parent_id name is_folder,
                                .out "ERROR: Node created but no ID returned"],
                   none)
                else if !is_folder && !(content == "") then
                  let t3 := t1 ++ t2 ++
                    [.createReq parent_id name is_folder,
                     .out ("Adding content to node " ++ new_id ++ "...")]
                  match env.putApi new_id { name := none, content := some content } with
                  | .resp us ub =>
                      if us == 200 then
                        (t3 ++ [.putReq new_id
                                  { name := none, content := some content },
                                .out "✓ Content added successfully"],
                         some new_id)
                      else
                        (t3 ++ [.putReq new_id
                                  { name := none, content := some content },
                                .out ("ERROR: Node created but content update failed: "
                                      ++ toString us),
                                .out ("Response: " ++ ub.text),
                                .out ("Node ID " ++ new_id ++
                                      " created, but you\x27ll need to add content manually")],
                         some new_id)
                  | .exn m =>
                      (t3 ++ [.putReq new_id
                                { name := none, content := some content },
                              .out ("ERROR: " ++ m)], none)
                else
                  (t1 ++ t2 ++ [.createReq parent_id name is_folder], some new_id)
            | none =>
                (t1 ++ t2 ++ [.createReq parent_id name is_folder,
                              .out "ERROR: Node created but no ID returned"],
                 none)
          else if status == 409 then
            (t1 ++ t2 ++
             [.createReq parent_id name is_folder,
              .out ("ERROR: A node with name \x27" ++ name ++
                    "\x27 already exists in " ++ parent_path),
              .out ("Existing node ID: " ++ pyStr body.existing_id),
              .out "Use the \x27update\x27 command to modify it instead, or delete it first"],
             none)
          else
            (t1 ++ t2 ++
             [.createReq parent_id name is_folder,
              .out ("ERROR: Failed to create node: " ++ toString status ++ " "
                    ++ body.text)], none)
      | .exn m =>
          (t1 ++ t2 ++ [.createReq parent_id name is_folder,
                        .out ("ERROR: " ++ m)], none)

/-- `update_node` (manage_knowledge.py:230-268).  Note the source order: the
service token is requested first; only then is the partial-update payload
built (truthy fields only) and the local `No updates specified` validation
performed. -/
def update_node (env : Env) (node_id : String) (title content : Option String) :
    List Event × Bool :=
  let (t1, token) := get_service_token env "knowledgetree"
  if !(strTruthy token) then
    (t1 ++ [.out "ERROR: Could not get service token for KnowledgeTree"], false)
  else
    let update_data : UpdatePayload :=
      { name := if strTruthy title then title else none,
        content := if strTruthy content then content else none }
    if update_data = { name := none, content := none } then
        (t1 ++ [.out "ERROR: No updates specified"], false)
    else
        match env.putApi node_id update_data with
        | .resp status body =>
            if status == 200 then (t1 ++ [.putReq node_id update_data], true)
            else
              (t1 ++ [.putReq node_id update_data,
                      .out ("ERROR: Failed to update node: " ++ toString status
                            ++ " " ++ body.text)], false)
        | .exn m =>
            (t1 ++ [.putReq node_id update_data, .out ("ERROR: " ++ m)], false)

/-- `delete_node` (manage_knowledge.py:271-295). -/
def delete_node (env : Env) (node_id : String) : List Event × Bool :=
  let (t1, token) := get_service_token env "knowledgetree"
  if !(strTruthy token) then
    (t1 ++ [.out "ERROR: Could not get service token for KnowledgeTree"], false)
  else
    match env.deleteApi node_id with
    | .resp status body =>
        if status == 200 then (t1 ++ [.deleteReq node_id], true)
        else
          (t1 ++ [.deleteReq node_id,
                  .out ("ERROR: Failed to delete node: " ++ toString status
                        ++ " " ++ body.text)], false)
    | .exn m => (t1 ++ [.deleteReq node_id, .out ("ERROR: " ++ m)], false)

/-- `get_node_details` (manage_knowledge.py:298-322). -/
def get_node_details (env : Env) (node_id : String) :
    List Event × Option NodeBody :=
  let (t1, token) := get_service_token env "knowledgetree"
  if !(strTruthy token) then
    (t1 ++ [.out "ERROR: Could not get service token for KnowledgeTree"], none)
  else
    match env.getApi node_id with
    | .resp status body =>
        if status == 200 then (t1 ++ [.getReq node_id], some body)
        else
          (t1 ++ [.getReq node_id,
                  .out ("ERROR: Failed to get node: " ++ toString status)], none)
    | .exn m => (t1 ++ [.getReq node_id, .out ("ERROR: " ++ m)], none)

/-- The six parsed subcommands of `main` (manage_knowledge.py:325-362).
The `--content` flag of `create` defaults to `""`; the `--title` and
`--content` flags of `update` default to `None`. -/
inductive Cmd where
  | search (query : String)
  | browse (path : String)
  | create (parent_path title content : String)
  | createFolder (parent_path name : String)
  | update (node_id : String) (title content : Option String)
  | delete (node_id : String)
deriving DecidableEq, Repr

/-- The four `print` lines of the search-result loop in `main`
(manage_knowledge.py:375-380). -/
def renderSearchItem (r : SearchItem) : List Event :=
  [.out ((if r.is_folder then "📁" else "📄") ++ " " ++ r.name),
   .out ("   Path: /" ++ r.folder_path.getD ""),
   .out ("   ID: " ++ r.id),
   .out ""]

/-- The `search` branch of `main` (manage_knowledge.py:369-382); note the
branch never calls `sys.exit`, so it always finishes with status 0. -/
def runSearch (env : Env) (query : String) : List Event × Nat :=
  let tr0 := [Event.out ("Searching for: " ++ query)]
  let (t1, results) := search_knowledge env query
  if results.isEmpty then (tr0 ++ t1 ++ [.out "No results found"], 0)
  else
    (tr0 ++ t1 ++
     [.out ("\nFound " ++ toString results.length ++ " results:\n")] ++
     (results.map renderSearchItem).flatten, 0)

/-- A folder line of the browse output in `main` (manage_knowledge.py:395). -/
def renderCat (c : CatItem) : Event := .out ("  📁 " ++ c.name)

/-- An article line of the browse output in `main` (manage_knowledge.py:399). -/
def renderArt (a : ArtItem) : Event :=
  .out ("  📄 " ++ a.title ++ " (ID: " ++ a.id ++ ")")

/-- The `browse` branch of `main` (manage_knowledge.py:384-401); like
`search`, it never calls `sys.exit`. -/
def runBrowse (env : Env) (path : String) : List Event × Nat :=
  let tr0 := [Event.out ("Browsing: " ++ path)]
  let (t1, result) := browse_knowledge env path
  match result with
  | some b =>
      (tr0 ++ t1 ++
       [.out ("\nCurrent: " ++
              (b.current_node.map (fun cn => cn.name.getD "root")).getD "root"),
        .out ("ID: " ++
              (b.current_node.map (fun cn => cn.id.getD "root")).getD "root"),
        .out "\nChildren:"] ++
       b.categories.map renderCat ++ b.articles.map renderArt, 0)
  | none => (tr0 ++ t1 ++ [.out "Path not found"], 0)

/-- The `create` branch of `main` (manage_knowledge.py:403-428): approval
gate first, then `create_node`, exit 1 on denial or falsy result. -/
def runCreate (env : Env) (parent_path title content : String) :
    List Event × Nat :=
  let summary := "Create knowledge article: " ++ title
  let d := env.approve summary
    [("Parent Path", parent_path), ("Title", title),
     ("Content Length", toString content.length ++ " characters"),
     ("Action", "Create new article in KnowledgeTree")]
  let tr0 := [Event.approvalReq summary d]
  if !d then (tr0 ++ [.out "✗ User denied the change"], 1)
  else
    let tr1 := tr0 ++
      [.out ("Creating article: " ++ title ++ " in " ++ parent_path)]
    let (t2, node_id) := create_node env parent_path title content false
    if strTruthy node_id then
      (tr1 ++ t2 ++ [.out "✓ Article created successfully",
                     .out ("  ID: " ++ pyStr node_id),
                     .out ("  Path: " ++ parent_path ++ "/" ++ title)], 0)
    else (tr1 ++ t2 ++ [.out "✗ Failed to create article"], 1)

/-- The `create-folder` branch of `main` (manage_knowledge.py:430-454). -/
def runCreateFolder (env : Env) (parent_path name : String) :
    List Event × Nat :=
  let summary := "Create knowledge folder: " ++ name
  let d := env.approve summary
    [("Parent Path", parent_path), ("Folder Name", name),
     ("Action", "Create new folder in KnowledgeTree")]
  let tr0 := [Event.approvalReq summary d]
  if !d then (tr0 ++ [.out "✗ User denied the change"], 1)
  else
    let tr1 := tr0 ++
      [.out ("Creating folder: " ++ name ++ " in " ++ parent_path)]
    let (t2, node_id) := create_node env parent_path name "" true
    if strTruthy node_id then
      (tr1 ++ t2 ++ [.out "✓ Folder created successfully",
                     .out ("  ID: " ++ pyStr node_id),
                     .out ("  Path: " ++ parent_path ++ "/" ++ name)], 0)
    else (tr1 ++ t2 ++ [.out "✗ Failed to create folder"], 1)

/-- The path-or-identifier disambiguation at the head of the `update`
branch (manage_knowledge.py:457-466): a leading `/` sends the identifier
through the Path Resolver; otherwise it is used as-is. -/
def resolveUpdateId (env : Env) (node_id0 : String) :
    List Event × Option String :=
  if startsWithSlash node_id0 then
    let (tr, r) := get_node_id_from_path env node_id0
    let tr := [Event.out ("Resolving path: " ++ node_id0)] ++ tr
    if strTruthy r then
      (tr ++ [.out ("Found node ID: " ++ pyStr r)], some (pyStr r))
    else
      (tr ++ [.out ("ERROR: Could not find node at path: " ++ node_id0)], none)
  else ([], some node_id0)

/-- The tail of the `update` branch after a granted approval
(manage_knowledge.py:495-500). -/
def updateApproved (env : Env) (nid : String) (title content : Option String) :
    List Event × Nat :=
  let tr := [Event.out ("Updating node: " ++ nid)]
  let (t3, ok) := update_node env nid title content
  if ok then (tr ++ t3 ++ [.out "✓ Article updated successfully"], 0)
  else (tr ++ t3 ++ [.out "✗ Failed to update article"], 1)

/-- The `update` branch once the node details are in hand
(manage_knowledge.py:474-500): approval prompt, then the update itself. -/
def updateWithNode (env : Env) (nid : String) (title content : Option String)
    (node : NodeBody) : List Event × Nat :=
  let details :=
    [("Current Title", node.name.getD "Unknown"), ("Node ID", nid),
     ("Action", "Update article in KnowledgeTree")] ++
    (if strTruthy title then [("New Title", pyStr title)] else []) ++
    (if strTruthy content then
      [("Content Update", toString (pyStr content).length ++ " characters")]
     else [])
  let summary := "Update knowledge article: " ++ pyStr node.name
  let d := env.approve summary details
  let head := [Event.approvalReq summary d]
  if !d then (head ++ [.out "✗ User denied the change"], 1)
  else
    let (t4, ec) := updateApproved env nid title content
    (head ++ t4, ec)

/-- The `update` branch of `main` (manage_knowledge.py:456-500). -/
def runUpdate (env : Env) (node_id0 : String) (title content : Option String) :
    List Event × Nat :=
  match resolveUpdateId env node_id0 with
  | (tr, none) => (tr, 1)
  | (tr, some nid) =>
    let (t2, nodeDetails) := get_node_details env nid
    match nodeDetails with
    | none => (tr ++ t2 ++ [.out ("ERROR: Node not found: " ++ nid)], 1)
    | some node =>
      let (t5, ec) := updateWithNode env nid title content node
      (tr ++ t2 ++ t5, ec)

/-- The `delete` branch of `main` (manage_knowledge.py:502-529): the
supplied identifier is used as-is (no path resolution); details are fetched
for the approval prompt, then `delete_node` runs on a granted decision. -/
def runDelete (env : Env) (node_id : String) : List Event × Nat :=
  let (t1, nodeDetails) := get_node_details env node_id
  match nodeDetails with
  | none => (t1 ++ [.out ("ERROR: Node not found: " ++ node_id)], 1)
  | some node =>
    let summary := "Delete knowledge article: " ++ pyStr node.name
    let d := env.approve summary
      [("Title", node.name.getD "Unknown"), ("Node ID", node_id),
       ("Type", if node.is_folder then "Folder" else "Article"),
       ("Action", "Delete from KnowledgeTree (includes children if folder)")]
    let tr := t1 ++ [Event.approvalReq summary d]
    if !d then (tr ++ [.out "✗ User denied the change"], 1)
    else
      let tr := tr ++ [Event.out ("Deleting node: " ++ node_id)]
      let (t2, ok) := delete_node env node_id
      if ok then (tr ++ t2 ++ [.out "✓ Article deleted successfully"], 0)
      else (tr ++ t2 ++ [.out "✗ Failed to delete article"], 1)

/-- The command dispatch of `main` (manage_knowledge.py:368-529): the event
trace of one process run together with its exit status (Python falls off
the end of `main` with status 0 unless `sys.exit(1)` fired). -/
def runMain (env : Env) : Cmd → List Event × Nat
  | .search q => runSearch env q
  | .browse p => runBrowse env p
  | .create pp t c => runCreate env pp t c
  | .createFolder pp n => runCreateFolder env pp n
  | .update i t c => runUpdate env i t c
  | .delete i => runDelete env i

/-- The mutating subcommands in the sense of the spec (§4.4). -/
def mutatingCmd : Cmd → Bool
  | .search _ => false
  | .browse _ => false
  | _ => true

/-- Environment of the Flask bootstrap module (`src/app/__init__.py`):
process environment variables and the local resources the later
initialisation steps consult. -/
structure WebEnv where
  getenv : String → Option String
  conf_connection : Option String
  services_found : Bool
  spacy_installed : Bool
  spacy_download_ok : Bool

/-- One step of the top-level execution of the bootstrap module, in
source order. -/
inductive InitEvent where
  | flaskApp
  | makedirs
  | configRead
  | dbInit
  | servicesLoaded (found : Bool)
  | helmLoggerInit (service_name helm_url : String)
  | spacyLoad (ok : Bool)
  | spacyDownload (ok : Bool)
  | proxyFix
  | routesImport
  | logLine (msg : String)
deriving DecidableEq, Repr

/-- The top-level execution of `src/app/__init__.py` run at import time:
configuration is read from the environment, `CORE_SERVICE_URL` is checked
(Python truthiness: unset or empty raises `ValueError`), and only then do
the database, services, Helm-logger, spaCy, proxy-middleware and route
initialisation steps run. -/
def appInit (w : WebEnv) : List InitEvent × Except String Unit :=
  let core := w.getenv "CORE_SERVICE_URL"
  let service_name := (w.getenv "SERVICE_NAME").getD "brainhair"
  let helm_url := (w.getenv "HELM_SERVICE_URL").getD "http://localhost:5004"
  let tr := [InitEvent.flaskApp]
  if !(strTruthy core) then
    (tr, .error "CORE_SERVICE_URL must be set in the .flaskenv file.")
  else
    let tr := tr ++ [.makedirs, .configRead, .dbInit,
                     .servicesLoaded w.services_found,
                     .helmLoggerInit service_name helm_url]
    let tr := tr ++
      (if w.spacy_installed then [InitEvent.spacyLoad true]
       else [InitEvent.spacyLoad false, .spacyDownload w.spacy_download_ok])
    (tr ++ [.proxyFix, .routesImport,
            .logLine (service_name ++ " service started")], .ok ())

/-- A mutating HTTP request: node POST, PUT or DELETE. -/
def isMut : Event → Bool
  | .createReq _ _ _ => true
  | .putReq _ _ => true
  | .deleteReq _ => true
  | _ => false

/-- An approval-gate invocation. -/
def isApprovalEvt : Event → Bool
  | .approvalReq _ _ => true
  | _ => false

/-- A granted approval-gate invocation. -/
def isGranted : Event → Bool
  | .approvalReq _ g => g
  | _ => false

/-- A denied approval-gate invocation. -/
def isDenied : Event → Bool
  | .approvalReq _ g => !g
  | _ => false

/-- Any HTTP request (network call), mutating or not. -/
def isReqEvt : Event → Bool
  | .tokenReq _ => true
  | .searchReq _ => true
  | .browseReq _ => true
  | .createReq _ _ _ => true
  | .putReq _ _ => true
  | .deleteReq _ => true
  | .getReq _ => true
  | _ => false

/-- A `PUT /api/node/{id}` request. -/
def isPutEvt : Event → Bool
  | .putReq _ _ => true
  | _ => false

/-- A `GET /api/browse` request. -/
def isBrowseEvt : Event → Bool
  | .browseReq _ => true
  | _ => false

/-- A `POST /api/node` request. -/
def isCreateEvt : Event → Bool
  | .createReq _ _ _ => true
  | _ => false

/-- Scan of a trace checking that every mutating request is preceded by a
granted approval; the flag records whether a granted approval has been
seen. -/
def guardedAux : Bool → List Event → Bool
  | _, [] => true
  | g, e :: r => ((!isMut e) || g) && guardedAux (g || isGranted e) r

/-- Every mutating request in the trace is preceded by a granted
approval. -/
def mutGuarded (tr : List Event) : Bool := guardedAux false tr

/-- Events that neither mutate nor grant: a trace of such events leaves the
`guardedAux` flag unchanged and trips no check. -/
def quietEvt (e : Event) : Bool := !isMut e && !isGranted e

/-- Every node-level request in the trace addresses exactly the identifier
`i` (browse requests are allowed: the resolver issues one). -/
def opUses (i : String) (e : Event) : Bool :=
  match e with
  | .getReq j => j == i
  | .putReq j _ => j == i
  | .deleteReq j => j == i
  | .createReq _ _ _ => false
  | _ => true

/-- Like `opUses`, additionally forbidding any browse request: the
identifier is used as-is, with no path resolution. -/
def usesRawId (i : String) (e : Event) : Bool :=
  match e with
  | .browseReq _ => false
  | _ => opUses i e


/-- Events a `get_service_token` call can emit. -/
def tokenishEvt : Event → Bool
  | .tokenReq _ => true
  | .out _ => true
  | _ => false

/-- Events a browse / path-resolution call can emit. -/
def resolveEvt : Event → Bool
  | .browseReq _ => true
  | e => tokenishEvt e

/-- Events a `get_node_details i` call can emit. -/
def detailsEvtFor (i : String) : Event → Bool
  | .getReq j => j == i
  | e => tokenishEvt e

/-- Events an `update_node i` call can emit. -/
def updateEvtFor (i : String) : Event → Bool
  | .putReq j _ => j == i
  | e => tokenishEvt e

/-- Events a `delete_node i` call can emit. -/
def deleteEvtFor (i : String) : Event → Bool
  | .deleteReq j => j == i
  | e => tokenishEvt e

/-- Events a `create_node` call can emit (in particular, never an approval
prompt). -/
def createOpEvt : Event → Bool
  | .createReq _ _ _ => true
  | .putReq _ _ => true
  | .browseReq _ => true
  | e => tokenishEvt e

/-- The approval-gate bundle for one run: every mutating request is
preceded by a granted approval, the gate is consulted at most once, and a
denied gate means no mutating request at all and a non-zero exit. -/
def gateProps (run : List Event × Nat) : Prop :=
  mutGuarded run.1 = true ∧
  run.1.countP isApprovalEvt ≤ 1 ∧
  (run.1.countP isDenied ≠ 0 → run.1.countP isMut = 0 ∧ run.2 ≠ 0)

/-- Events that are not mutating requests. -/
def noMutEvt (e : Event) : Bool := !isMut e

/-- A fully cooperative remote world: token granted, every endpoint
succeeds, the operator approves everything. -/
def envOk : Env :=
  { serviceToken := fun _ => .resp 200 { token := some "tok" }
    searchApi := fun _ => .resp 200 []
    browseApi := fun _ =>
      .resp 200 { current_node := some { id := some "it-1", name := some "IT" },
                  categories := [], articles := [] }
    createApi := fun _ _ _ => .resp 200 { id := some "art-9", existing_id := none, text := "" }
    putApi := fun _ _ => .resp 200 { text := "ok" }
    deleteApi := fun _ => .resp 200 { text := "ok" }
    getApi := fun _ => .resp 200 { name := some "Doc", is_folder := false }
    approve := fun _ _ => true }

/-- Like `envOk` but the operator denies every approval request. -/
def envDeny : Env := { envOk with approve := fun _ _ => false }

/-- A world where the Core token endpoint always raises a transport
error, so no bearer token can be obtained. -/
def envNoToken : Env := { envOk with serviceToken := fun _ => .exn "boom" }

/-- Like `envOk` but node creation answers 409 (duplicate name) carrying
the existing identifier. -/
def env409 : Env :=
  { envOk with createApi := fun _ _ _ =>
      (.resp 409 { id := none, existing_id := some "old-1", text := "conflict" }) }

/-- Like `envOk` but node creation answers 500. -/
def env500 : Env :=
  { envOk with createApi := fun _ _ _ =>
      (.resp 500 { id := none, existing_id := none, text := "boom" }) }

/-- Like `envOk` but the content-update `PUT` answers 500, producing the
partial-success situation: node created, content missing. -/
def envPartialPut : Env :=
  { envOk with putApi := fun _ _ => .resp 500 { text := "put boom" } }

/-- Like `envOk` but `GET /api/node/{id}` answers 404. -/
def envGet404 : Env :=
  { envOk with getApi := fun _ => .resp 404 { name := none, is_folder := false } }

/-- A web environment with no environment variables set at all. -/
def webEnvUnset : WebEnv :=
  { getenv := fun _ => none, conf_connection := none, services_found := true,
    spacy_installed := true, spacy_download_ok := true }

/-- Like `envOk` but browsing any path answers 404, so no non-root path
resolves. -/
def envNoPath : Env :=
  { envOk with browseApi := fun _ =>
      (.resp 404 { current_node := none, categories := [], articles := [] }) }

theorem all_trans {l : List Event} {p q : Event → Bool}
    (h : l.all p = true) (hpq : ∀ e, p e = true → q e = true) :
    l.all q = true := by
  rw [List.all_eq_true] at h ⊢
  exact fun e he => hpq e (h e he)

theorem countP_zero_of_all {l : List Event} {p q : Event → Bool}
    (h : l.all p = true) (hpq : ∀ e, p e = true → q e = false) :
    l.countP q = 0 := by
  rw [List.all_eq_true] at h
  rw [List.countP_eq_zero]
  intro e he hq
  have := hpq e (h e he)
  simp [hq] at this

theorem get_service_token_all (env : Env) (t : String) :
    (get_service_token env t).1.all tokenishEvt = true := by
  unfold get_service_token
  cases h : env.serviceToken t with
  | resp status body =>
      cases hb : body.token <;> by_cases hs : (status == 200) <;>
        simp [hb, hs, tokenishEvt]
  | exn m => simp [tokenishEvt]

theorem browse_knowledge_all (env : Env) (p : String) :
    (browse_knowledge env p).1.all resolveEvt = true := by
  unfold browse_knowledge
  cases hg : get_service_token env "knowledgetree" with
  | mk t1 tok =>
    have h1 : t1.all resolveEvt = true := by
      have := get_service_token_all env "knowledgetree"
      rw [hg] at this
      exact all_trans this (by intro e he; cases e <;> simp_all [tokenishEvt, resolveEvt])
    by_cases ht : strTruthy tok
    · cases hb : env.browseApi p with
      | resp status body =>
          by_cases hs : (status == 200) <;>
            simp [hg, ht, hb, hs, h1, List.all_append, resolveEvt, tokenishEvt]
      | exn m => simp [hg, ht, hb, h1, List.all_append, resolveEvt, tokenishEvt]
    · simp [hg, ht, h1, List.all_append, resolveEvt, tokenishEvt]

theorem get_node_id_from_path_all (env : Env) (p : String) :
    (get_node_id_from_path env p).1.all resolveEvt = true := by
  unfold get_node_id_from_path
  by_cases hr : (p == "/" || p == "root")
  · simp [hr]
  · cases hb : browse_knowledge env p with
    | mk t1 br =>
      have h1 : t1.all resolveEvt = true := by
        have := browse_knowledge_all env p
        rw [hb] at this
        exact this
      cases br with
      | none => simp [hr, hb, h1, List.all_append, resolveEvt, tokenishEvt]
      | some body =>
        cases hc : body.current_node with
        | none => simp [hr, hb, hc, h1, List.all_append, resolveEvt, tokenishEvt]
        | some cn =>
          cases hi : cn.id with
          | none => simp [hr, hb, hc, hi, h1, List.all_append, resolveEvt, tokenishEvt]
          | some i =>
            by_cases hie : (i == "") <;>
              simp [hr, hb, hc, hi, hie, h1, List.all_append, resolveEvt, tokenishEvt]

theorem get_node_details_all (env : Env) (i : String) :
    (get_node_details env i).1.all (detailsEvtFor i) = true := by
  unfold get_node_details
  cases hg : get_service_token env "knowledgetree" with
  | mk t1 tok =>
    have h1 : t1.all (detailsEvtFor i) = true := by
      have := get_service_token_all env "knowledgetree"
      rw [hg] at this
      exact all_trans this (by intro e he; cases e <;> simp_all [tokenishEvt, detailsEvtFor])
    by_cases ht : strTruthy tok
    · cases hb : env.getApi i with
      | resp status body =>
          by_cases hs : (status == 200) <;>
            simp [hg, ht, hb, hs, h1, List.all_append, detailsEvtFor, tokenishEvt]
      | exn m => simp [hg, ht, hb, h1, List.all_append, detailsEvtFor, tokenishEvt]
    · simp [hg, ht, h1, List.all_append, detailsEvtFor, tokenishEvt]

theorem update_node_all (env : Env) (i : String) (t c : Option String) :
    (update_node env i t c).1.all (updateEvtFor i) = true := by
  unfold update_node
  cases hg : get_service_token env "knowledgetree" with
  | mk t1 tok =>
    have h1 : t1.all (updateEvtFor i) = true := by
      have := get_service_token_all env "knowledgetree"
      rw [hg] at this
      exact all_trans this (by intro e he; cases e <;> simp_all [tokenishEvt, updateEvtFor])
    by_cases ht : strTruthy tok
    · by_cases hd : ({ name := if strTruthy t then t else none,
                       content := if strTruthy c then c else none } : UpdatePayload)
                     = { name := none, content := none }
      · simp [hg, ht, hd, h1, List.all_append, updateEvtFor, tokenishEvt]
      · cases hb : env.putApi i { name := if strTruthy t then t else none,
                                  content := if strTruthy c then c else none } with
        | resp status body =>
            by_cases hs : (status == 200) <;>
              simp [hg, ht, hd, hb, hs, h1, List.all_append, updateEvtFor, tokenishEvt]
        | exn m =>
            simp [hg, ht, hd, hb, h1, List.all_append, updateEvtFor, tokenishEvt]
    · simp [hg, ht, h1, List.all_append, updateEvtFor, tokenishEvt]

theorem delete_node_all (env : Env) (i : String) :
    (delete_node env i).1.all (deleteEvtFor i) = true := by
  unfold delete_node
  cases hg : get_service_token env "knowledgetree" with
  | mk t1 tok =>
    have h1 : t1.all (deleteEvtFor i) = true := by
      have := get_service_token_all env "knowledgetree"
      rw [hg] at this
      exact all_trans this (by intro e he; cases e <;> simp_all [tokenishEvt, deleteEvtFor])
    by_cases ht : strTruthy tok
    · cases hb : env.deleteApi i with
      | resp status body =>
          by_cases hs : (status == 200) <;>
            simp [hg, ht, hb, hs, h1, List.all_append, deleteEvtFor, tokenishEvt]
      | exn m => simp [hg, ht, hb, h1, List.all_append, deleteEvtFor, tokenishEvt]
    · simp [hg, ht, h1, List.all_append, deleteEvtFor, tokenishEvt]

theorem create_node_all (env : Env) (pp n c : String) (f : Bool) :
    (create_node env pp n c f).1.all createOpEvt = true := by
  unfold create_node
  cases hg : get_service_token env "knowledgetree" with
  | mk t1 tok =>
    have h1 : t1.all createOpEvt = true := by
      have := get_service_token_all env "knowledgetree"
      rw [hg] at this
      exact all_trans this (by intro e he; cases e <;> simp_all [tokenishEvt, createOpEvt])
    by_cases ht : strTruthy tok
    · cases hp : get_node_id_from_path env pp with
      | mk t2 pid =>
        have h2 : t2.all createOpEvt = true := by
          have := get_node_id_from_path_all env pp
          rw [hp] at this
          exact all_trans this
            (by intro e he; cases e <;> simp_all [tokenishEvt, resolveEvt, createOpEvt])
        by_cases hpt : strTruthy pid
        · cases hc : env.createApi (pyStr pid) n f with
          | resp status body =>
            by_cases hs : (status == 200)
            · cases hid : body.id with
              | none =>
                  simp [hg, ht, hp, hpt, hc, hs, hid, h1, h2, List.all_append,
                        createOpEvt, tokenishEvt]
              | some new_id =>
                by_cases hie : (new_id == "")
                · simp [hg, ht, hp, hpt, hc, hs, hid, hie, h1, h2, List.all_append,
                        createOpEvt, tokenishEvt]
                · by_cases hcc : (!f && !(c == ""))
                  · cases hu : env.putApi new_id { name := none, content := some c } with
                    | resp us ub =>
                        by_cases hus : (us == 200) <;>
                          simp [hg, ht, hp, hpt, hc, hs, hid, hie, hcc, hu, hus, h1, h2,
                                List.all_append, createOpEvt, tokenishEvt]
                    | exn m =>
                        simp [hg, ht, hp, hpt, hc, hs, hid, hie, hcc, hu, h1, h2,
                              List.all_append, createOpEvt, tokenishEvt]
                  · simp [hg, ht, hp, hpt, hc, hs, hid, hie, hcc, h1, h2,
                          List.all_append, createOpEvt, tokenishEvt]
            · by_cases h409 : (status == 409) <;>
                simp [hg, ht, hp, hpt, hc, hs, h409, h1, h2, List.all_append,
                      createOpEvt, tokenishEvt]
          | exn m =>
              simp [hg, ht, hp, hpt, hc, h1, h2, List.all_append, createOpEvt, tokenishEvt]
        · simp [hg, ht, hp, hpt, h1, h2, List.all_append, createOpEvt, tokenishEvt]
    · simp [hg, ht, h1, List.all_append, createOpEvt, tokenishEvt]

theorem guardedAux_true : ∀ l : List Event, guardedAux true l = true := by
  intro l
  induction l with
  | nil => rfl
  | cons e r ih => simp [guardedAux, ih]

theorem guardedAux_append_quiet {l₁ : List Event} (g : Bool) (l₂ : List Event)
    (h : l₁.all quietEvt = true) :
    guardedAux g (l₁ ++ l₂) = guardedAux g l₂ := by
  induction l₁ generalizing g with
  | nil => rfl
  | cons e r ih =>
      rw [List.all_cons, Bool.and_eq_true] at h
      have he := h.1
      rw [quietEvt, Bool.and_eq_true] at he
      have hm : isMut e = false := by simpa using he.1
      have hgr : isGranted e = false := by simpa using he.2
      simp only [List.cons_append, guardedAux, hm, hgr, Bool.not_false, Bool.true_or, Bool.true_and, Bool.or_false]
      exact ih g h.2

theorem resolveEvt_quiet : ∀ e, resolveEvt e = true → quietEvt e = true := by
  intro e; cases e <;> simp [resolveEvt, tokenishEvt, quietEvt, isMut, isGranted]

theorem resolveEvt_noApproval : ∀ e, resolveEvt e = true → isApprovalEvt e = false := by
  intro e; cases e <;> simp [resolveEvt, tokenishEvt, isApprovalEvt]

theorem resolveEvt_noDenied : ∀ e, resolveEvt e = true → isDenied e = false := by
  intro e; cases e <;> simp [resolveEvt, tokenishEvt, isDenied]

theorem resolveEvt_noMut : ∀ e, resolveEvt e = true → isMut e = false := by
  intro e; cases e <;> simp [resolveEvt, tokenishEvt, isMut]

theorem detailsEvtFor_quiet (i : String) :
    ∀ e, detailsEvtFor i e = true → quietEvt e = true := by
  intro e; cases e <;> simp [detailsEvtFor, tokenishEvt, quietEvt, isMut, isGranted]

theorem detailsEvtFor_noApproval (i : String) :
    ∀ e, detailsEvtFor i e = true → isApprovalEvt e = false := by
  intro e; cases e <;> simp [detailsEvtFor, tokenishEvt, isApprovalEvt]

theorem detailsEvtFor_noDenied (i : String) :
    ∀ e, detailsEvtFor i e = true → isDenied e = false := by
  intro e; cases e <;> simp [detailsEvtFor, tokenishEvt, isDenied]

theorem detailsEvtFor_noMut (i : String) :
    ∀ e, detailsEvtFor i e = true → isMut e = false := by
  intro e; cases e <;> simp [detailsEvtFor, tokenishEvt, isMut]

theorem updateEvtFor_noApproval (i : String) :
    ∀ e, updateEvtFor i e = true → isApprovalEvt e = false := by
  intro e; cases e <;> simp [updateEvtFor, tokenishEvt, isApprovalEvt]

theorem updateEvtFor_noDenied (i : String) :
    ∀ e, updateEvtFor i e = true → isDenied e = false := by
  intro e; cases e <;> simp [updateEvtFor, tokenishEvt, isDenied]

theorem deleteEvtFor_noApproval (i : String) :
    ∀ e, deleteEvtFor i e = true → isApprovalEvt e = false := by
  intro e; cases e <;> simp [deleteEvtFor, tokenishEvt, isApprovalEvt]

theorem deleteEvtFor_noDenied (i : String) :
    ∀ e, deleteEvtFor i e = true → isDenied e = false := by
  intro e; cases e <;> simp [deleteEvtFor, tokenishEvt, isDenied]

theorem createOpEvt_noApproval :
    ∀ e, createOpEvt e = true → isApprovalEvt e = false := by
  intro e; cases e <;> simp [createOpEvt, tokenishEvt, isApprovalEvt]

theorem createOpEvt_noDenied :
    ∀ e, createOpEvt e = true → isDenied e = false := by
  intro e; cases e <;> simp [createOpEvt, tokenishEvt, isDenied]

theorem runDelete_gate (env : Env) (i : String) : gateProps (runDelete env i) := by
  unfold gateProps runDelete
  cases hd : get_node_details env i with
  | mk t1 nd =>
    have hall := get_node_details_all env i
    rw [hd] at hall
    have hq : t1.all quietEvt = true := all_trans hall (detailsEvtFor_quiet i)
    have hA : t1.countP isApprovalEvt = 0 := countP_zero_of_all hall (detailsEvtFor_noApproval i)
    have hD : t1.countP isDenied = 0 := countP_zero_of_all hall (detailsEvtFor_noDenied i)
    have hM : t1.countP isMut = 0 := countP_zero_of_all hall (detailsEvtFor_noMut i)
    cases nd with
    | none =>
      refine ⟨?_, ?_, ?_⟩
      · simp only [mutGuarded]
        rw [guardedAux_append_quiet false _ hq]
        simp [guardedAux, isMut, isGranted]
      · simp [List.countP_append, hA, List.countP_cons, isApprovalEvt]
      · intro hcon
        simp [List.countP_append, hD, List.countP_cons, isDenied] at hcon
    | some node =>
      by_cases happ : env.approve ("Delete knowledge article: " ++ pyStr node.name)
          [("Title", node.name.getD "Unknown"), ("Node ID", i),
           ("Type", if node.is_folder then "Folder" else "Article"),
           ("Action", "Delete from KnowledgeTree (includes children if folder)")]
      · cases hdel : delete_node env i with
        | mk t2 ok =>
          have hall2 := delete_node_all env i
          rw [hdel] at hall2
          have hA2 : t2.countP isApprovalEvt = 0 :=
            countP_zero_of_all hall2 (deleteEvtFor_noApproval i)
          have hD2 : t2.countP isDenied = 0 :=
            countP_zero_of_all hall2 (deleteEvtFor_noDenied i)
          cases ok <;>
          · refine ⟨?_, ?_, ?_⟩
            · simp only [mutGuarded, happ, hdel, Bool.not_true, Bool.false_eq_true,
                         ↓reduceIte, List.append_assoc]
              rw [guardedAux_append_quiet false _ hq]
              simp [guardedAux, isMut, isGranted, guardedAux_true]
            · simp [happ, hdel, List.countP_append, hA, hA2, List.countP_cons,
                    isApprovalEvt]
            · intro hcon
              simp [happ, hdel, List.countP_append, hD, hD2, List.countP_cons,
                    isDenied] at hcon
      · refine ⟨?_, ?_, ?_⟩
        · simp only [mutGuarded, happ, Bool.not_false, ↓reduceIte, List.append_assoc]
          rw [guardedAux_append_quiet false _ hq]
          simp [guardedAux, isMut, isGranted]
        · simp [happ, List.countP_append, hA, List.countP_cons, isApprovalEvt]
        · intro hcon
          refine ⟨?_, by simp [happ]⟩
          simp [happ, List.countP_append, hM, List.countP_cons, isMut]

theorem guardedAux_of_noMut {tr : List Event} (g : Bool)
    (h : tr.all noMutEvt = true) : guardedAux g tr = true := by
  induction tr generalizing g with
  | nil => rfl
  | cons e r ih =>
      rw [List.all_cons, Bool.and_eq_true] at h
      have hm : isMut e = false := by simpa [noMutEvt] using h.1
      simp [guardedAux, hm, ih _ h.2]

theorem quiet_noMut : ∀ e, quietEvt e = true → noMutEvt e = true := by
  intro e he
  rw [quietEvt, Bool.and_eq_true] at he
  simpa [noMutEvt] using he.1

theorem gateProps_of_quiet {tr : List Event} {ec : Nat}
    (hq : tr.all quietEvt = true)
    (hA : tr.countP isApprovalEvt = 0)
    (hD : tr.countP isDenied = 0) :
    gateProps (tr, ec) := by
  refine ⟨?_, ?_, ?_⟩
  · exact guardedAux_of_noMut false (all_trans hq quiet_noMut)
  · simp [hA]
  · intro hcon
    simp [hD] at hcon

theorem gateProps_head (s : String) (d : Bool) (post : List Event) (ec : Nat)
    (hpostA : post.countP isApprovalEvt = 0)
    (hpostD : post.countP isDenied = 0)
    (hd : d = false → post.all noMutEvt = true ∧ ec ≠ 0) :
    gateProps (Event.approvalReq s d :: post, ec) := by
  refine ⟨?_, ?_, ?_⟩
  · show guardedAux false _ = true
    cases d
    · simp [guardedAux, isMut, isGranted, guardedAux_of_noMut _ (hd rfl).1]
    · simp [guardedAux, isMut, isGranted, guardedAux_true]
  · simp [List.countP_cons, hpostA, isApprovalEvt]
  · intro hcon
    cases d
    · have hp := (hd rfl).1
      have h0 : post.countP isMut = 0 :=
        countP_zero_of_all hp (by intro e he; simpa [noMutEvt] using he)
      exact ⟨by simp [List.countP_cons, h0, isMut], (hd rfl).2⟩
    · exfalso
      simp [List.countP_cons, hpostD, isDenied] at hcon

theorem gateProps_cons_quiet {tr : List Event} {ec : Nat} (e : Event)
    (he : quietEvt e = true) (heA : isApprovalEvt e = false)
    (h : gateProps (tr, ec)) : gateProps (e :: tr, ec) := by
  obtain ⟨h1, h2, h3⟩ := h
  rw [quietEvt, Bool.and_eq_true] at he
  have hm : isMut e = false := by simpa using he.1
  have hgr : isGranted e = false := by simpa using he.2
  have hdn : isDenied e = false := by
    cases e <;> simp_all [isDenied, isApprovalEvt]
  refine ⟨?_, ?_, ?_⟩
  · show guardedAux false _ = true
    simpa [guardedAux, hm, hgr] using h1
  · simpa [List.countP_cons, heA] using h2
  · intro hcon
    rw [List.countP_cons, hdn] at hcon
    simp at hcon
    obtain ⟨hm0, hec⟩ := h3 (by simpa using hcon)
    exact ⟨by simp [List.countP_cons, hm, hm0], hec⟩

theorem gateProps_append_quiet {pre tr : List Event} {ec : Nat}
    (hq : pre.all quietEvt = true)
    (hA : pre.countP isApprovalEvt = 0)
    (h : gateProps (tr, ec)) : gateProps (pre ++ tr, ec) := by
  induction pre with
  | nil => simpa using h
  | cons e r ih =>
      rw [List.all_cons, Bool.and_eq_true] at hq
      rw [List.countP_cons] at hA
      have heA : isApprovalEvt e = false := by
        by_cases hcase : isApprovalEvt e = true
        · simp [hcase] at hA
        · simpa using hcase
      have hrA : r.countP isApprovalEvt = 0 := by
        rw [heA] at hA
        simpa using hA
      exact gateProps_cons_quiet e hq.1 heA (ih hq.2 hrA)

theorem resolveUpdateId_all (env : Env) (i : String) :
    (resolveUpdateId env i).1.all resolveEvt = true := by
  unfold resolveUpdateId
  by_cases hsl : startsWithSlash i = true
  · cases hres : get_node_id_from_path env i with
    | mk t1 r =>
      have hall1 := get_node_id_from_path_all env i
      rw [hres] at hall1
      by_cases hrt : strTruthy r = true <;>
        simp [hsl, hres, hrt, List.all_append, hall1, resolveEvt, tokenishEvt]
  · simp [hsl]

theorem updateApproved_all (env : Env) (nid : String) (t c : Option String) :
    (updateApproved env nid t c).1.all (updateEvtFor nid) = true := by
  unfold updateApproved
  cases hup : update_node env nid t c with
  | mk t3 ok =>
    have hall := update_node_all env nid t c
    rw [hup] at hall
    cases ok <;>
      simp [hup, List.all_append, hall, updateEvtFor, tokenishEvt]

theorem updateWithNode_gate (env : Env) (nid : String) (t c : Option String)
    (node : NodeBody) : gateProps (updateWithNode env nid t c node) := by
  unfold updateWithNode
  by_cases ht : strTruthy t = true <;> by_cases hc : strTruthy c = true <;>
    simp only [ht, hc, Bool.false_eq_true, ↓reduceIte] <;>
    split <;> rename_i h <;>
    first
    | · rw [Bool.not_eq_true'] at h
        rw [h]
        exact gateProps_head _ false _ _
          (by simp [List.countP_cons, isApprovalEvt])
          (by simp [List.countP_cons, isDenied])
          (fun _ => ⟨by simp [noMutEvt, isMut], by simp⟩)
    | · rw [Bool.not_eq_true', Bool.not_eq_false] at h
        rw [h]
        cases hup : updateApproved env nid t c with
        | mk t4 ec =>
          have hall := updateApproved_all env nid t c
          rw [hup] at hall
          exact gateProps_head _ true _ _
            (countP_zero_of_all hall (updateEvtFor_noApproval nid))
            (countP_zero_of_all hall (updateEvtFor_noDenied nid))
            (by intro hfalse; exact absurd hfalse (by decide))

theorem runCreate_gate (env : Env) (pp t c : String) :
    gateProps (runCreate env pp t c) := by
  unfold runCreate
  cases hcr : create_node env pp t c false with
  | mk t2 nid =>
    have hall2 := create_node_all env pp t c false
    rw [hcr] at hall2
    have hA2 : t2.countP isApprovalEvt = 0 :=
      countP_zero_of_all hall2 createOpEvt_noApproval
    have hD2 : t2.countP isDenied = 0 :=
      countP_zero_of_all hall2 createOpEvt_noDenied
    cases happ : env.approve ("Create knowledge article: " ++ t)
        [("Parent Path", pp), ("Title", t),
         ("Content Length", toString c.length ++ " characters"),
         ("Action", "Create new article in KnowledgeTree")]
    · simp only [happ, Bool.not_false, ↓reduceIte]
      exact gateProps_head _ false _ _
        (by simp [List.countP_cons, isApprovalEvt])
        (by simp [List.countP_cons, isDenied])
        (fun _ => ⟨by simp [noMutEvt, isMut], by simp⟩)
    · by_cases hs : strTruthy nid = true <;>
        simp only [happ, hs, Bool.not_true, Bool.false_eq_true, ↓reduceIte] <;>
        exact gateProps_head _ true _ _
          (by simp [List.countP_append, List.countP_cons, hA2, isApprovalEvt])
          (by simp [List.countP_append, List.countP_cons, hD2, isDenied])
          (by intro hfalse; exact absurd hfalse (by decide))

theorem runCreateFolder_gate (env : Env) (pp n : String) :
    gateProps (runCreateFolder env pp n) := by
  unfold runCreateFolder
  cases hcr : create_node env pp n "" true with
  | mk t2 nid =>
    have hall2 := create_node_all env pp n "" true
    rw [hcr] at hall2
    have hA2 : t2.countP isApprovalEvt = 0 :=
      countP_zero_of_all hall2 createOpEvt_noApproval
    have hD2 : t2.countP isDenied = 0 :=
      countP_zero_of_all hall2 createOpEvt_noDenied
    cases happ : env.approve ("Create knowledge folder: " ++ n)
        [("Parent Path", pp), ("Folder Name", n),
         ("Action", "Create new folder in KnowledgeTree")]
    · simp only [happ, Bool.not_false, ↓reduceIte]
      exact gateProps_head _ false _ _
        (by simp [List.countP_cons, isApprovalEvt])
        (by simp [List.countP_cons, isDenied])
        (fun _ => ⟨by simp [noMutEvt, isMut], by simp⟩)
    · by_cases hs : strTruthy nid = true <;>
        simp only [happ, hs, Bool.not_true, Bool.false_eq_true, ↓reduceIte] <;>
        exact gateProps_head _ true _ _
          (by simp [List.countP_append, List.countP_cons, hA2, isApprovalEvt])
          (by simp [List.countP_append, List.countP_cons, hD2, isDenied])
          (by intro hfalse; exact absurd hfalse (by decide))

theorem runUpdate_gate (env : Env) (i : String) (t c : Option String) :
    gateProps (runUpdate env i t c) := by
  unfold runUpdate
  cases hres : resolveUpdateId env i with
  | mk tr r =>
    have hall1 := resolveUpdateId_all env i
    rw [hres] at hall1
    have hq1 : tr.all quietEvt = true := all_trans hall1 resolveEvt_quiet
    have hA1 : tr.countP isApprovalEvt = 0 :=
      countP_zero_of_all hall1 resolveEvt_noApproval
    have hD1 : tr.countP isDenied = 0 :=
      countP_zero_of_all hall1 resolveEvt_noDenied
    cases r with
    | none => exact gateProps_of_quiet hq1 hA1 hD1
    | some nid =>
      dsimp only
      cases hdet : get_node_details env nid with
      | mk t2 nd =>
        have hall2 := get_node_details_all env nid
        rw [hdet] at hall2
        have hq2 : t2.all quietEvt = true := all_trans hall2 (detailsEvtFor_quiet nid)
        have hA2 : t2.countP isApprovalEvt = 0 :=
          countP_zero_of_all hall2 (detailsEvtFor_noApproval nid)
        have hD2 : t2.countP isDenied = 0 :=
          countP_zero_of_all hall2 (detailsEvtFor_noDenied nid)
        cases nd with
        | none =>
          refine gateProps_of_quiet ?_ ?_ ?_
          · simp [List.all_append, hq1, hq2, quietEvt, isMut, isGranted]
          · simp [List.countP_append, hA1, hA2, List.countP_cons, isApprovalEvt]
          · simp [List.countP_append, hD1, hD2, List.countP_cons, isDenied]
        | some node =>
          cases hupd : updateWithNode env nid t c node with
          | mk t5 ec =>
            have hg := updateWithNode_gate env nid t c node
            rw [hupd] at hg
            simp only [hupd, List.append_assoc]
            exact gateProps_append_quiet hq1 hA1 (gateProps_append_quiet hq2 hA2 hg)


/-- **C1** For every mutating command (`create`, `create-folder`, `update`,
`delete`) and every environment, the trace of the run satisfies: every mutating
HTTP request (node POST, PUT or DELETE) is preceded by a granted approval,
the approval gate is consulted at most once (hence a preceding granted
decision is the single gate call of the run), and if the gate returned a
denial then the trace contains zero mutating requests and the exit status
is non-zero. -/
theorem c1_approval_gate (env : Env) (cmd : Cmd) (h : mutatingCmd cmd = true) :
    mutGuarded (runMain env cmd).1 = true ∧
    (runMain env cmd).1.countP isApprovalEvt ≤ 1 ∧
    ((runMain env cmd).1.countP isDenied ≠ 0 →
      (runMain env cmd).1.countP isMut = 0 ∧ (runMain env cmd).2 ≠ 0) := by
  cases cmd with
  | search q => simp [mutatingCmd] at h
  | browse p => simp [mutatingCmd] at h
  | create pp t c => exact runCreate_gate env pp t c
  | createFolder pp n => exact runCreateFolder_gate env pp n
  | update i t c => exact runUpdate_gate env i t c
  | delete i => exact runDelete_gate env i

/-- Witness for **C1**: concrete denying environment on a concrete `delete`
command. -/
theorem c1_approval_gate_witness :
    mutatingCmd (Cmd.delete "n1") = true ∧
    (mutGuarded (runMain envDeny (Cmd.delete "n1")).1 = true ∧
     (runMain envDeny (Cmd.delete "n1")).1.countP isApprovalEvt ≤ 1 ∧
     ((runMain envDeny (Cmd.delete "n1")).1.countP isDenied ≠ 0 →
       (runMain envDeny (Cmd.delete "n1")).1.countP isMut = 0 ∧
       (runMain envDeny (Cmd.delete "n1")).2 ≠ 0)) :=
  ⟨by decide, c1_approval_gate envDeny (Cmd.delete "n1") (by decide)⟩

/-- **C10** Importing the web-application bootstrap module with
`CORE_SERVICE_URL` unset or empty raises the `ValueError` and stops before
any database, Helm-logger or proxy-middleware initialisation step. -/
theorem c10_core_url_guard (w : WebEnv)
    (h : strTruthy (w.getenv "CORE_SERVICE_URL") = false) :
    (appInit w).2 = .error "CORE_SERVICE_URL must be set in the .flaskenv file." ∧
    (appInit w).1 = [InitEvent.flaskApp] ∧
    InitEvent.dbInit ∉ (appInit w).1 ∧
    InitEvent.proxyFix ∉ (appInit w).1 ∧
    (∀ sn hu, InitEvent.helmLoggerInit sn hu ∉ (appInit w).1) := by
  unfold appInit
  simp [h]

/-- Witness for **C10**: the empty environment. -/
theorem c10_core_url_guard_witness :
    strTruthy (webEnvUnset.getenv "CORE_SERVICE_URL") = false ∧
    ((appInit webEnvUnset).2 =
       .error "CORE_SERVICE_URL must be set in the .flaskenv file." ∧
     (appInit webEnvUnset).1 = [InitEvent.flaskApp] ∧
     InitEvent.dbInit ∉ (appInit webEnvUnset).1 ∧
     InitEvent.proxyFix ∉ (appInit webEnvUnset).1 ∧
     (∀ sn hu, InitEvent.helmLoggerInit sn hu ∉ (appInit webEnvUnset).1)) :=
  ⟨by decide, c10_core_url_guard webEnvUnset (by decide)⟩

/-- **C9** In `update_node`, an empty-string title or content is treated
exactly as an absent one (the field is omitted from the payload, so the
whole call behaves identically), and when both supplied fields are empty
the call fails with the `No updates specified` diagnostic (once a token was
obtained, since the source checks the token first). -/
theorem c9_empty_fields_absent (env : Env) (i : String) (t c : Option String) :
    update_node env i (some "") c = update_node env i none c ∧
    update_node env i t (some "") = update_node env i t none ∧
    (strTruthy (get_service_token env "knowledgetree").2 = true →
      (update_node env i (some "") (some "")).2 = false ∧
      Event.out "ERROR: No updates specified"
        ∈ (update_node env i (some "") (some "")).1) := by
  refine ⟨rfl, rfl, ?_⟩
  intro htok
  unfold update_node
  cases hg : get_service_token env "knowledgetree" with
  | mk t1 tok =>
    rw [hg] at htok
    have htok2 : strTruthy tok = true := htok
    have e1 : strTruthy (some "") = false := rfl
    simp [htok2, e1, List.mem_append]

/-- Witness for **C9** at a concrete environment and identifier. -/
theorem c9_empty_fields_absent_witness :
    (update_node envOk "n1" (some "") (some "T") =
       update_node envOk "n1" none (some "T") ∧
     update_node envOk "n1" (some "T") (some "") =
       update_node envOk "n1" (some "T") none ∧
     (strTruthy (get_service_token envOk "knowledgetree").2 = true →
       (update_node envOk "n1" (some "") (some "")).2 = false ∧
       Event.out "ERROR: No updates specified"
         ∈ (update_node envOk "n1" (some "") (some "")).1)) :=
  c9_empty_fields_absent envOk "n1" (some "T") (some "T")

/-- **C7** A `create` whose parent path does not resolve returns `False`,
issues no node-creation `POST` (indeed no mutating request at all), and —
whenever the token had been obtained, which is the only way the resolver
itself could run — prints the `Could not find parent path` diagnostic. -/
theorem c7_unresolved_parent (env : Env) (pp n c : String) (f : Bool)
    (h : strTruthy (get_node_id_from_path env pp).2 = false) :
    (create_node env pp n c f).2 = none ∧
    (create_node env pp n c f).1.countP isCreateEvt = 0 ∧
    (create_node env pp n c f).1.countP isMut = 0 ∧
    (strTruthy (get_service_token env "knowledgetree").2 = true →
      Event.out ("ERROR: Could not find parent path: " ++ pp)
        ∈ (create_node env pp n c f).1) := by
  unfold create_node
  cases hg : get_service_token env "knowledgetree" with
  | mk t1 tok =>
    have hall1 := get_service_token_all env "knowledgetree"
    rw [hg] at hall1
    have hc1 : t1.countP isCreateEvt = 0 :=
      countP_zero_of_all hall1
        (by intro e he; cases e <;> simp_all [tokenishEvt, isCreateEvt])
    have hm1 : t1.countP isMut = 0 :=
      countP_zero_of_all hall1
        (by intro e he; cases e <;> simp_all [tokenishEvt, isMut])
    by_cases ht : strTruthy tok = true
    · cases hp : get_node_id_from_path env pp with
      | mk t2 pid =>
        rw [hp] at h
        have hall2 := get_node_id_from_path_all env pp
        rw [hp] at hall2
        have hc2 : t2.countP isCreateEvt = 0 :=
          countP_zero_of_all hall2
            (by intro e he; cases e <;> simp_all [resolveEvt, tokenishEvt, isCreateEvt])
        have hm2 : t2.countP isMut = 0 :=
          countP_zero_of_all hall2
            (by intro e he; cases e <;> simp_all [resolveEvt, tokenishEvt, isMut])
        refine ⟨?_, ?_, ?_, ?_⟩ <;>
          simp [ht, hp, h, List.countP_append, List.countP_cons, hc1, hc2,
                hm1, hm2, isCreateEvt, isMut]
    · have hts : strTruthy tok = false := by simpa using ht
      refine ⟨?_, ?_, ?_, ?_⟩
      · simp [hts]
      · simp [hts, List.countP_append, List.countP_cons, hc1, isCreateEvt]
      · simp [hts, List.countP_append, List.countP_cons, hm1, isMut]
      · intro hcontra
        exact absurd hcontra ht

/-- Witness for **C7**: a world where every browse answers 404, so the
parent path `/Missing` does not resolve. -/
theorem c7_unresolved_parent_witness :
    strTruthy (get_node_id_from_path envNoPath "/Missing").2 = false ∧
    ((create_node envNoPath "/Missing" "T" "x" false).2 = none ∧
     (create_node envNoPath "/Missing" "T" "x" false).1.countP isCreateEvt = 0 ∧
     (create_node envNoPath "/Missing" "T" "x" false).1.countP isMut = 0 ∧
     (strTruthy (get_service_token envNoPath "knowledgetree").2 = true →
       Event.out ("ERROR: Could not find parent path: " ++ "/Missing")
         ∈ (create_node envNoPath "/Missing" "T" "x" false).1)) :=
  ⟨by decide, c7_unresolved_parent envNoPath "/Missing" "T" "x" false (by decide)⟩

/-- Counterexample to **C3** as stated: with a cooperative remote world, an
`update` with neither title nor content still issues three network calls —
two token requests and the node-details fetch — before failing with exit
status 1.  The claim asserts zero network calls. -/
theorem c3_counterexample :
    (runMain envOk (Cmd.update "abc-123" none none)).1.countP isReqEvt = 3 ∧
    Event.tokenReq "knowledgetree" ∈ (runMain envOk (Cmd.update "abc-123" none none)).1 ∧
    Event.getReq "abc-123" ∈ (runMain envOk (Cmd.update "abc-123" none none)).1 ∧
    (runMain envOk (Cmd.update "abc-123" none none)).2 = 1 := by decide

/-- Counterexample to **C4** as stated: `delete` of the path-shaped
identifier `/IT` performs no path resolution (zero browse calls) and runs
its node operations on the raw string `/IT`, even though `/IT` resolves
fine (to `it-1`) in this world — so `update` and `delete` do not accept the
two identifier forms identically. -/
theorem c4_counterexample :
    (runMain envOk (Cmd.delete "/IT")).1.countP isBrowseEvt = 0 ∧
    Event.getReq "/IT" ∈ (runMain envOk (Cmd.delete "/IT")).1 ∧
    Event.deleteReq "/IT" ∈ (runMain envOk (Cmd.delete "/IT")).1 ∧
    strTruthy (get_node_id_from_path envOk "/IT").2 = true := by decide

/-- Counterexample to **C5** as stated: when the token endpoint raises, the
`search` and `browse` commands print the failure but exit with status 0,
not 1. -/
theorem c5_counterexample :
    (runMain envNoToken (Cmd.search "pw")).2 = 0 ∧
    Event.out "ERROR: Could not get service token for KnowledgeTree"
      ∈ (runMain envNoToken (Cmd.search "pw")).1 ∧
    (runMain envNoToken (Cmd.browse "/IT")).2 = 0 := by decide

theorem update_node_no_fields (env : Env) (i : String) (t c : Option String)
    (h1 : strTruthy t = false) (h2 : strTruthy c = false) :
    (update_node env i t c).2 = false ∧
    (update_node env i t c).1.countP isMut = 0 ∧
    (update_node env i t c).1.countP isPutEvt = 0 := by
  unfold update_node
  cases hg : get_service_token env "knowledgetree" with
  | mk t1 tok =>
    have hall1 := get_service_token_all env "knowledgetree"
    rw [hg] at hall1
    have hm1 : t1.countP isMut = 0 :=
      countP_zero_of_all hall1 (by intro e he; cases e <;> simp_all [tokenishEvt, isMut])
    have hp1 : t1.countP isPutEvt = 0 :=
      countP_zero_of_all hall1 (by intro e he; cases e <;> simp_all [tokenishEvt, isPutEvt])
    by_cases ht : strTruthy tok = true <;>
      simp [ht, h1, h2, List.countP_append, List.countP_cons, hm1, hp1, isMut, isPutEvt]

theorem updateApproved_no_fields (env : Env) (i : String) (t c : Option String)
    (h1 : strTruthy t = false) (h2 : strTruthy c = false) :
    (updateApproved env i t c).2 = 1 ∧
    (updateApproved env i t c).1.countP isMut = 0 ∧
    (updateApproved env i t c).1.countP isPutEvt = 0 := by
  unfold updateApproved
  cases hup : update_node env i t c with
  | mk t3 ok =>
    obtain ⟨hfalse, hm, hp⟩ := update_node_no_fields env i t c h1 h2
    rw [hup] at hfalse hm hp
    simp only at hfalse hm hp
    subst hfalse
    simp [List.countP_append, List.countP_cons, hm, hp, isMut, isPutEvt]

theorem updateWithNode_no_fields (env : Env) (i : String) (t c : Option String)
    (node : NodeBody) (h1 : strTruthy t = false) (h2 : strTruthy c = false) :
    (updateWithNode env i t c node).2 = 1 ∧
    (updateWithNode env i t c node).1.countP isMut = 0 ∧
    (updateWithNode env i t c node).1.countP isPutEvt = 0 := by
  unfold updateWithNode
  simp only [h1, h2, Bool.false_eq_true, ↓reduceIte]
  split
  · simp [List.countP_cons, isMut, isPutEvt]
  · cases hup : updateApproved env i t c with
    | mk t4 ec =>
      obtain ⟨hec, hm, hp⟩ := updateApproved_no_fields env i t c h1 h2
      rw [hup] at hec hm hp
      simp only at hec hm hp
      subst hec
      simp [List.countP_append, List.countP_cons, hm, hp, isMut, isPutEvt]

theorem runUpdate_no_fields (env : Env) (i : String) (t c : Option String)
    (h1 : strTruthy t = false) (h2 : strTruthy c = false) :
    (runUpdate env i t c).2 = 1 ∧
    (runUpdate env i t c).1.countP isMut = 0 ∧
    (runUpdate env i t c).1.countP isPutEvt = 0 := by
  unfold runUpdate
  cases hres : resolveUpdateId env i with
  | mk tr r =>
    have hall1 := resolveUpdateId_all env i
    rw [hres] at hall1
    have hm1 : tr.countP isMut = 0 :=
      countP_zero_of_all hall1 resolveEvt_noMut
    have hp1 : tr.countP isPutEvt = 0 :=
      countP_zero_of_all hall1
        (by intro e he; cases e <;> simp_all [resolveEvt, tokenishEvt, isPutEvt])
    cases r with
    | none => exact ⟨rfl, hm1, hp1⟩
    | some nid =>
      dsimp only
      cases hdet : get_node_details env nid with
      | mk t2 nd =>
        have hall2 := get_node_details_all env nid
        rw [hdet] at hall2
        have hm2 : t2.countP isMut = 0 :=
          countP_zero_of_all hall2 (detailsEvtFor_noMut nid)
        have hp2 : t2.countP isPutEvt = 0 :=
          countP_zero_of_all hall2
            (by intro e he; cases e <;> simp_all [detailsEvtFor, tokenishEvt, isPutEvt])
        cases nd with
        | none =>
          refine ⟨rfl, ?_, ?_⟩ <;>
            simp [List.countP_append, List.countP_cons, hm1, hm2, hp1, hp2,
                  isMut, isPutEvt]
        | some node =>
          dsimp only
          cases hupd : updateWithNode env nid t c node with
          | mk t5 ec =>
            obtain ⟨hec, hm5, hp5⟩ := updateWithNode_no_fields env nid t c node h1 h2
            rw [hupd] at hec hm5 hp5
            simp only at hec hm5 hp5
            subst hec
            refine ⟨rfl, ?_, ?_⟩ <;>
              simp [List.countP_append, hm1, hm2, hm5, hp1, hp2, hp5]

/-- Amended **C3**: an `update` invocation with neither title nor content
exits with status 1 and never issues the update `PUT` (nor any mutating
request); however — contrary to the original claim — the run is not free of
network calls: the token requests and the node-details fetch still happen,
because the source validates the payload only inside `update_node`, after
fetching a token (see the counterexample). -/
theorem c3_update_validation_amended (env : Env) (i : String) :
    (runMain env (Cmd.update i none none)).2 = 1 ∧
    (runMain env (Cmd.update i none none)).1.countP isPutEvt = 0 ∧
    (runMain env (Cmd.update i none none)).1.countP isMut = 0 := by
  obtain ⟨h1, h2, h3⟩ := runUpdate_no_fields env i none none rfl rfl
  exact ⟨h1, h3, h2⟩

theorem get_node_id_from_path_some_ne (env : Env) (p i : String)
    (h : (get_node_id_from_path env p).2 = some i) : i ≠ "" := by
  unfold get_node_id_from_path at h
  by_cases hr : (p == "/" || p == "root") = true
  · rw [if_pos hr] at h
    simp only at h
    cases h
    decide
  · rw [if_neg hr] at h
    cases hb : browse_knowledge env p with
    | mk t1 br =>
      rw [hb] at h
      cases br with
      | none => simp at h
      | some body =>
        cases hc : body.current_node with
        | none => simp [hc] at h
        | some cn =>
          cases hi : cn.id with
          | none => simp [hc, hi] at h
          | some s =>
            by_cases hie : (s == "") = true
            · simp [hc, hi, hie] at h
            · simp [hc, hi, hie] at h
              subst h
              simpa using hie

theorem resolveUpdateId_noslash (env : Env) (i : String)
    (h : startsWithSlash i = false) :
    resolveUpdateId env i = ([], some i) := by
  unfold resolveUpdateId
  simp [h]

theorem resolveUpdateId_slash_some (env : Env) (i nid : String)
    (hs : startsWithSlash i = true)
    (h : (get_node_id_from_path env i).2 = some nid) :
    (resolveUpdateId env i).2 = some nid := by
  unfold resolveUpdateId
  cases hres : get_node_id_from_path env i with
  | mk tr r =>
    rw [hres] at h
    simp only at h
    subst h
    have hne : nid ≠ "" := get_node_id_from_path_some_ne env i nid (by rw [hres])
    simp [hs, strTruthy, pyStr, hne]

theorem updateWithNode_all (env : Env) (nid : String) (t c : Option String)
    (node : NodeBody) :
    (updateWithNode env nid t c node).1.all
      (fun e => isApprovalEvt e || updateEvtFor nid e) = true := by
  unfold updateWithNode
  by_cases ht : strTruthy t = true <;> by_cases hc : strTruthy c = true <;>
    simp only [ht, hc, Bool.false_eq_true, ↓reduceIte] <;>
    split <;>
    first
    | (simp [isApprovalEvt, updateEvtFor, tokenishEvt]; done)
    | · cases hup : updateApproved env nid t c with
        | mk t4 ec =>
          have hall := updateApproved_all env nid t c
          rw [hup] at hall
          simp only at hall
          rw [List.all_append, Bool.and_eq_true]
          refine ⟨?_, ?_⟩
          · simp [isApprovalEvt]
          · exact all_trans hall (by intro e he; simp [he])

theorem runDelete_uses_raw (env : Env) (i : String) :
    (runDelete env i).1.all (usesRawId i) = true := by
  unfold runDelete
  cases hdet : get_node_details env i with
  | mk t1 nd =>
    have hall1 := get_node_details_all env i
    rw [hdet] at hall1
    have h1 : t1.all (usesRawId i) = true :=
      all_trans hall1
        (by intro e he; cases e <;> simp_all [detailsEvtFor, tokenishEvt, usesRawId, opUses])
    cases nd with
    | none => simp [List.all_append, h1, usesRawId, opUses]
    | some node =>
      cases hf : node.is_folder <;>
        simp only [hf, Bool.false_eq_true, ↓reduceIte] <;>
        split <;>
        first
        | (simp [List.all_append, h1, usesRawId, opUses]; done)
        | · cases hdel : delete_node env i with
            | mk t2 ok =>
              have hall2 := delete_node_all env i
              rw [hdel] at hall2
              simp only at hall2
              have h2 : t2.all (usesRawId i) = true :=
                all_trans hall2
                  (by intro e he; cases e <;>
                      simp_all [deleteEvtFor, tokenishEvt, usesRawId, opUses])
              cases ok <;>
                simp [List.all_append, h1, h2, usesRawId, opUses]

theorem updateWithNode_uses (env : Env) (nid : String) (t c : Option String)
    (node : NodeBody) :
    (updateWithNode env nid t c node).1.all (opUses nid) = true := by
  have hall := updateWithNode_all env nid t c node
  exact all_trans hall
    (by intro e he
        rw [Bool.or_eq_true] at he
        rcases he with ha | hu
        · cases e <;> simp_all [isApprovalEvt, opUses]
        · cases e <;> simp_all [updateEvtFor, tokenishEvt, opUses])

theorem runUpdate_uses_raw (env : Env) (i : String) (t c : Option String)
    (h : startsWithSlash i = false) :
    (runUpdate env i t c).1.all (usesRawId i) = true := by
  unfold runUpdate
  rw [resolveUpdateId_noslash env i h]
  dsimp only
  cases hdet : get_node_details env i with
  | mk t2 nd =>
    have hall2 := get_node_details_all env i
    rw [hdet] at hall2
    have h2 : t2.all (usesRawId i) = true :=
      all_trans hall2
        (by intro e he; cases e <;> simp_all [detailsEvtFor, tokenishEvt, usesRawId, opUses])
    cases nd with
    | none => simp [List.all_append, h2, usesRawId, opUses]
    | some node =>
      dsimp only
      cases hupd : updateWithNode env i t c node with
      | mk t5 ec =>
        have h5all := updateWithNode_all env i t c node
        rw [hupd] at h5all
        simp only at h5all
        have h5 : t5.all (usesRawId i) = true :=
          all_trans h5all
            (by intro e he
                rw [Bool.or_eq_true] at he
                rcases he with ha | hu
                · cases e <;> simp_all [isApprovalEvt, usesRawId, opUses]
                · cases e <;> simp_all [updateEvtFor, tokenishEvt, usesRawId, opUses])
        simp only []
        simp [List.all_append, h2, h5]

theorem runUpdate_uses_resolved (env : Env) (i nid : String) (t c : Option String)
    (hs : startsWithSlash i = true)
    (h : (get_node_id_from_path env i).2 = some nid) :
    (runUpdate env i t c).1.all (opUses nid) = true := by
  unfold runUpdate
  cases hres : resolveUpdateId env i with
  | mk tr r =>
    have hr2 := resolveUpdateId_slash_some env i nid hs h
    rw [hres] at hr2
    simp only at hr2
    subst hr2
    have hall1 := resolveUpdateId_all env i
    rw [hres] at hall1
    simp only at hall1
    have h1 : tr.all (opUses nid) = true :=
      all_trans hall1
        (by intro e he; cases e <;> simp_all [resolveEvt, tokenishEvt, opUses])
    dsimp only
    cases hdet : get_node_details env nid with
    | mk t2 nd =>
      have hall2 := get_node_details_all env nid
      rw [hdet] at hall2
      have h2 : t2.all (opUses nid) = true :=
        all_trans hall2
          (by intro e he; cases e <;> simp_all [detailsEvtFor, tokenishEvt, opUses])
      cases nd with
      | none => simp [List.all_append, h1, h2, opUses]
      | some node =>
        dsimp only
        cases hupd : updateWithNode env nid t c node with
        | mk t5 ec =>
          have h5 := updateWithNode_uses env nid t c node
          rw [hupd] at h5
          simp only at h5
          simp [List.all_append, h1, h2, h5]

/-- Amended **C4**: only the `update` command disambiguates a `/`-prefixed
identifier through the Path Resolver (all its node operations then address
the resolved identifier, and a raw identifier is used as-is); the `delete`
command performs no path resolution at all and always uses the supplied
string as the node identifier. -/
theorem c4_path_dispatch_amended (env : Env) (i : String) (t c : Option String) :
    (startsWithSlash i = false →
      (runMain env (Cmd.update i t c)).1.all (usesRawId i) = true) ∧
    (∀ nid, startsWithSlash i = true →
      (get_node_id_from_path env i).2 = some nid →
      (runMain env (Cmd.update i t c)).1.all (opUses nid) = true) ∧
    (runMain env (Cmd.delete i)).1.all (usesRawId i) = true :=
  ⟨fun h => runUpdate_uses_raw env i t c h,
   fun nid hs h => runUpdate_uses_resolved env i nid t c hs h,
   runDelete_uses_raw env i⟩

/-- Witness for **C4** (amended): concrete raw-identifier update, resolved
path update, and delete. -/
theorem c4_path_dispatch_amended_witness :
    (startsWithSlash "abc" = false →
      (runMain envOk (Cmd.update "abc" (some "T") none)).1.all (usesRawId "abc") = true) ∧
    (∀ nid, startsWithSlash "abc" = true →
      (get_node_id_from_path envOk "abc").2 = some nid →
      (runMain envOk (Cmd.update "abc" (some "T") none)).1.all (opUses nid) = true) ∧
    (runMain envOk (Cmd.delete "abc")).1.all (usesRawId "abc") = true :=
  c4_path_dispatch_amended envOk "abc" (some "T") none

theorem browse_knowledge_count (env : Env) (p : String) :
    (browse_knowledge env p).1.countP isBrowseEvt ≤ 1 ∧
    (strTruthy (get_service_token env "knowledgetree").2 = true →
      (browse_knowledge env p).1.countP isBrowseEvt = 1) := by
  unfold browse_knowledge
  cases hg : get_service_token env "knowledgetree" with
  | mk t1 tok =>
    have hall1 := get_service_token_all env "knowledgetree"
    rw [hg] at hall1
    have hb1 : t1.countP isBrowseEvt = 0 :=
      countP_zero_of_all hall1
        (by intro e he; cases e <;> simp_all [tokenishEvt, isBrowseEvt])
    by_cases ht : strTruthy tok = true
    · cases hbr : env.browseApi p with
      | resp status body =>
          by_cases hs2 : (status == 200) = true <;>
            refine ⟨?_, fun _ => ?_⟩ <;>
            simp [ht, hbr, hs2, List.countP_append, List.countP_cons, hb1, isBrowseEvt]
      | exn m =>
          refine ⟨?_, fun _ => ?_⟩ <;>
            simp [ht, hbr, List.countP_append, List.countP_cons, hb1, isBrowseEvt]
    · have ht2 : strTruthy tok = false := by simpa using ht
      refine ⟨?_, fun hcon => ?_⟩
      · simp [ht2, List.countP_append, List.countP_cons, hb1, isBrowseEvt]
      · exact absurd hcon ht

theorem get_node_id_from_path_count (env : Env) (p : String)
    (hr : (p == "/" || p == "root") = false) :
    (get_node_id_from_path env p).1.countP isBrowseEvt =
      (browse_knowledge env p).1.countP isBrowseEvt := by
  unfold get_node_id_from_path
  simp only [hr, Bool.false_eq_true, ↓reduceIte]
  cases hb : browse_knowledge env p with
  | mk t1 br =>
    cases br with
    | none => simp [List.countP_append, List.countP_cons, isBrowseEvt]
    | some body =>
      cases hc : body.current_node with
      | none => simp [hc, List.countP_append, List.countP_cons, isBrowseEvt]
      | some cn =>
        cases hi : cn.id with
        | none => simp [hc, hi, List.countP_append, List.countP_cons, isBrowseEvt]
        | some s =>
          by_cases hie : (s == "") = true <;>
            simp [hc, hi, hie, List.countP_append, List.countP_cons, isBrowseEvt]

/-- Counterexample to **C8** as stated: when the token endpoint raises, a
non-root path resolution issues zero browse calls, not exactly one. -/
theorem c8_counterexample :
    (get_node_id_from_path envNoToken "/IT").1.countP isBrowseEvt = 0 ∧
    (get_node_id_from_path envNoToken "/IT").2 = none := by decide

/-- Amended **C8**: `resolvePath` of `/` or `root` returns the well-known
root identifier with no network traffic at all; for any other path it
issues at most one browse call — exactly one whenever a service token is
obtained (on token failure no browse request is sent) — and when the browse
answers 200 with a current node whose identifier is a non-empty string,
that identifier is returned. -/
theorem c8_resolver_amended (env : Env) (p : String) (b : BrowseBody)
    (cn : CNode) (i : String)
    (hp1 : (p == "/") = false) (hp2 : (p == "root") = false) :
    get_node_id_from_path env "/" = ([], some "root") ∧
    get_node_id_from_path env "root" = ([], some "root") ∧
    (get_node_id_from_path env p).1.countP isBrowseEvt ≤ 1 ∧
    (strTruthy (get_service_token env "knowledgetree").2 = true →
      (get_node_id_from_path env p).1.countP isBrowseEvt = 1) ∧
    (strTruthy (get_service_token env "knowledgetree").2 = true →
      env.browseApi p = .resp 200 b → b.current_node = some cn →
      cn.id = some i → (i == "") = false →
      (get_node_id_from_path env p).2 = some i) := by
  have hr : (p == "/" || p == "root") = false := by simp [hp1, hp2]
  obtain ⟨hle, hone⟩ := browse_knowledge_count env p
  have hcnt := get_node_id_from_path_count env p hr
  refine ⟨rfl, rfl, ?_, ?_, ?_⟩
  · rw [hcnt]; exact hle
  · intro htok; rw [hcnt]; exact hone htok
  · intro htok hbr hc hi hie
    unfold get_node_id_from_path browse_knowledge
    cases hg : get_service_token env "knowledgetree" with
    | mk t1 tok =>
      rw [hg] at htok
      have htok2 : strTruthy tok = true := htok
      simp [hr, htok2, hbr, hc, hi, hie]

/-- Witness for **C8** (amended) at the cooperative environment and the
path `/IT`. -/
theorem c8_resolver_amended_witness :
    ("/IT" == "/") = false ∧ ("/IT" == "root") = false ∧
    (get_node_id_from_path envOk "/" = ([], some "root") ∧
     get_node_id_from_path envOk "root" = ([], some "root") ∧
     (get_node_id_from_path envOk "/IT").1.countP isBrowseEvt ≤ 1 ∧
     (strTruthy (get_service_token envOk "knowledgetree").2 = true →
       (get_node_id_from_path envOk "/IT").1.countP isBrowseEvt = 1) ∧
     (strTruthy (get_service_token envOk "knowledgetree").2 = true →
       envOk.browseApi "/IT" =
         .resp 200 { current_node := some { id := some "it-1", name := some "IT" },
                     categories := [], articles := [] } →
       ({ current_node := some { id := some "it-1", name := some "IT" },
          categories := [], articles := [] } : BrowseBody).current_node =
         some { id := some "it-1", name := some "IT" } →
       ({ id := some "it-1", name := some "IT" } : CNode).id = some "it-1" →
       ("it-1" == "") = false →
       (get_node_id_from_path envOk "/IT").2 = some "it-1")) :=
  ⟨by decide, by decide,
   c8_resolver_amended envOk "/IT"
     { current_node := some { id := some "it-1", name := some "IT" },
       categories := [], articles := [] }
     { id := some "it-1", name := some "IT" } "it-1" (by decide) (by decide)⟩

/-- Counterexample to **C6** as stated: the value `create_node` returns on
a 409 is the same plain failure (`False`, embedded as `none`) that a 500
returns — the returned outcome is not a distinct Conflict carrying the
existing identifier; that identifier appears only in the printed report. -/
theorem c6_counterexample :
    (create_node env409 "/" "X" "" false).2 = none ∧
    (create_node env500 "/" "X" "" false).2 = none ∧
    (create_node env409 "/" "X" "" false).2 = (create_node env500 "/" "X" "" false).2 ∧
    Event.out "Existing node ID: old-1" ∈ (create_node env409 "/" "X" "" false).1 := by
  decide

/-- Amended **C6**: a `create` whose creation `POST` answers 409 returns
plain failure (`False`), prints a report carrying the `existing_id` field
of the response, and issues no further request after that `POST` — the
creation request is the last network call of the operation (no retry, no
reinterpretation). -/
theorem c6_conflict_amended (env : Env) (pp n c : String) (f : Bool)
    (pid ex : String) (body : CreateBody)
    (htok : strTruthy (get_service_token env "knowledgetree").2 = true)
    (hres : (get_node_id_from_path env pp).2 = some pid)
    (hcr : env.createApi pid n f = .resp 409 body)
    (hex : body.existing_id = some ex) :
    (create_node env pp n c f).2 = none ∧
    Event.out ("Existing node ID: " ++ ex) ∈ (create_node env pp n c f).1 ∧
    ∃ k, (create_node env pp n c f).1.filter isReqEvt =
           k ++ [Event.createReq pid n f] := by
  unfold create_node
  cases hg : get_service_token env "knowledgetree" with
  | mk t1 tok =>
    rw [hg] at htok
    have htok2 : strTruthy tok = true := htok
    cases hp : get_node_id_from_path env pp with
    | mk t2 pid0 =>
      rw [hp] at hres
      simp only at hres
      subst hres
      have hne : pid ≠ "" := get_node_id_from_path_some_ne env pp pid (by rw [hp])
      have hst : strTruthy (some pid) = true := by simp [strTruthy, hne]
      refine ⟨?_, ?_, ⟨t1.filter isReqEvt ++ t2.filter isReqEvt, ?_⟩⟩ <;>
        simp [htok2, hst, pyStr, hcr, hex, List.mem_append, List.filter_append,
              isReqEvt]

/-- Witness for **C6** (amended): the concrete 409 world, creating under
the root path. -/
theorem c6_conflict_amended_witness :
    strTruthy (get_service_token env409 "knowledgetree").2 = true ∧
    (get_node_id_from_path env409 "/").2 = some "root" ∧
    env409.createApi "root" "X" false =
      .resp 409 { id := none, existing_id := some "old-1", text := "conflict" } ∧
    ({ id := none, existing_id := some "old-1", text := "conflict" } : CreateBody).existing_id = some "old-1" ∧
    ((create_node env409 "/" "X" "" false).2 = none ∧
     Event.out ("Existing node ID: " ++ "old-1") ∈ (create_node env409 "/" "X" "" false).1 ∧
     ∃ k, (create_node env409 "/" "X" "" false).1.filter isReqEvt =
            k ++ [Event.createReq "root" "X" false]) :=
  ⟨by decide, by decide, by decide, by decide,
   c6_conflict_amended env409 "/" "X" "" false "root" "old-1"
     { id := none, existing_id := some "old-1", text := "conflict" }
     (by decide) (by decide) (by decide) (by decide)⟩

/-- Counterexample to **C2** as stated: the partial-success run (creation
200, content update 500) returns exactly the same value as the total
success run, and both exit 0 — the returned result carries no
PartialSuccess indicator distinct from total success. -/
theorem c2_counterexample :
    (create_node envPartialPut "/" "T" "body" false).2 = some "art-9" ∧
    (create_node envOk "/" "T" "body" false).2 = some "art-9" ∧
    (create_node envPartialPut "/" "T" "body" false).2 =
      (create_node envOk "/" "T" "body" false).2 ∧
    (runMain envPartialPut (Cmd.create "/" "T" "body")).2 = 0 ∧
    (runMain envOk (Cmd.create "/" "T" "body")).2 = 0 ∧
    envPartialPut.putApi "art-9" { name := none, content := some "body" } =
      .resp 500 { text := "put boom" } := by
  decide

/-- Amended **C2**: a `create` of a non-folder node with non-empty content
whose creation succeeds but whose follow-up content update answers non-200
returns the new identifier (so it is distinct from plain Failure) and
prints the distinct content-update-failure diagnostic; however the
returned value and the process exit status are the same as on total
success (see the counterexample). -/
theorem c2_partial_amended (env : Env) (pp n c : String) (pid nid : String)
    (body : CreateBody) (us : Nat) (ub : TextBody)
    (htok : strTruthy (get_service_token env "knowledgetree").2 = true)
    (hres : (get_node_id_from_path env pp).2 = some pid)
    (hcr : env.createApi pid n false = .resp 200 body)
    (hid : body.id = some nid) (hnid : (nid == "") = false)
    (hcne : (c == "") = false)
    (hput : env.putApi nid { name := none, content := some c } = .resp us ub)
    (hus : (us == 200) = false) :
    (create_node env pp n c false).2 = some nid ∧
    (create_node env pp n c false).2 ≠ none ∧
    Event.out ("ERROR: Node created but content update failed: " ++ toString us)
      ∈ (create_node env pp n c false).1 := by
  unfold create_node
  cases hg : get_service_token env "knowledgetree" with
  | mk t1 tok =>
    rw [hg] at htok
    have htok2 : strTruthy tok = true := htok
    cases hp : get_node_id_from_path env pp with
    | mk t2 pid0 =>
      rw [hp] at hres
      simp only at hres
      subst hres
      have hne : pid ≠ "" := get_node_id_from_path_some_ne env pp pid (by rw [hp])
      have hst : strTruthy (some pid) = true := by simp [strTruthy, hne]
      refine ⟨?_, ?_, ?_⟩ <;>
        simp [htok2, hst, pyStr, hcr, hid, hnid, hcne, hput, hus, List.mem_append]

/-- Witness for **C2** (amended): the concrete partial-success world. -/
theorem c2_partial_amended_witness :
    strTruthy (get_service_token envPartialPut "knowledgetree").2 = true ∧
    (get_node_id_from_path envPartialPut "/").2 = some "root" ∧
    envPartialPut.createApi "root" "T" false =
      .resp 200 { id := some "art-9", existing_id := none, text := "" } ∧
    ({ id := some "art-9", existing_id := none, text := "" } : CreateBody).id = some "art-9" ∧
    ("art-9" == "") = false ∧ ("body" == "") = false ∧
    envPartialPut.putApi "art-9" { name := none, content := some "body" } =
      .resp 500 { text := "put boom" } ∧
    ((500 : Nat) == 200) = false ∧
    ((create_node envPartialPut "/" "T" "body" false).2 = some "art-9" ∧
     (create_node envPartialPut "/" "T" "body" false).2 ≠ none ∧
     Event.out ("ERROR: Node created but content update failed: " ++ toString (500 : Nat))
       ∈ (create_node envPartialPut "/" "T" "body" false).1) :=
  ⟨by decide, by decide, by decide, by decide, by decide, by decide, by decide, by decide,
   c2_partial_amended envPartialPut "/" "T" "body" "root" "art-9"
     { id := some "art-9", existing_id := none, text := "" } 500 { text := "put boom" }
     (by decide) (by decide) (by decide) (by decide) (by decide) (by decide)
     (by decide) (by decide)⟩

theorem update_node_true (env : Env) (j : String) (t c : Option String)
    (h : (update_node env j t c).2 = true) :
    Event.putReq j { name := if strTruthy t then t else none,
                     content := if strTruthy c then c else none }
      ∈ (update_node env j t c).1 ∧
    ∃ b, env.putApi j { name := if strTruthy t then t else none,
                        content := if strTruthy c then c else none } =
           .resp 200 b := by
  unfold update_node at h ⊢
  cases hg : get_service_token env "knowledgetree" with
  | mk t1 tok =>
    rw [hg] at h
    simp only at h
    by_cases ht : strTruthy tok = true
    · by_cases hd : ({ name := if strTruthy t then t else none,
                       content := if strTruthy c then c else none } : UpdatePayload)
                     = { name := none, content := none }
      · simp [ht, hd] at h
      · cases hput : env.putApi j { name := if strTruthy t then t else none,
                                    content := if strTruthy c then c else none } with
        | resp st b =>
          rw [hput] at h
          by_cases hs : (st == 200) = true
          · have hst : st = 200 := by simpa using hs
            subst hst
            refine ⟨?_, ⟨b, rfl⟩⟩
            simp [ht, hd, hput, List.mem_append]
          · simp [ht, hd, hs] at h
        | exn m =>
          rw [hput] at h
          simp [ht, hd] at h
    · simp [ht] at h

theorem delete_node_true (env : Env) (j : String)
    (h : (delete_node env j).2 = true) :
    Event.deleteReq j ∈ (delete_node env j).1 ∧
    ∃ b, env.deleteApi j = .resp 200 b := by
  unfold delete_node at h ⊢
  cases hg : get_service_token env "knowledgetree" with
  | mk t1 tok =>
    rw [hg] at h
    simp only at h
    by_cases ht : strTruthy tok = true
    · cases hdel : env.deleteApi j with
      | resp st b =>
        rw [hdel] at h
        by_cases hs : (st == 200) = true
        · have hst : st = 200 := by simpa using hs
          subst hst
          refine ⟨?_, ⟨b, rfl⟩⟩
          simp [ht, hdel, List.mem_append]
        · simp [ht, hs] at h
      | exn m =>
        rw [hdel] at h
        simp [ht] at h
    · simp [ht] at h

theorem updateApproved_zero (env : Env) (nid : String) (t c : Option String)
    (h : (updateApproved env nid t c).2 = 0) :
    Event.putReq nid { name := if strTruthy t then t else none,
                       content := if strTruthy c then c else none }
      ∈ (updateApproved env nid t c).1 ∧
    ∃ b, env.putApi nid { name := if strTruthy t then t else none,
                          content := if strTruthy c then c else none } =
           .resp 200 b := by
  unfold updateApproved at h ⊢
  cases hup : update_node env nid t c with
  | mk t3 ok =>
    rw [hup] at h
    cases ok
    · simp at h
    · obtain ⟨hmem, hex⟩ := update_node_true env nid t c (by rw [hup])
      rw [hup] at hmem
      simp only at hmem
      refine ⟨?_, hex⟩
      simp [List.mem_append, hmem]

theorem updateApproved_exit01 (env : Env) (nid : String) (t c : Option String) :
    (updateApproved env nid t c).2 = 0 ∨ (updateApproved env nid t c).2 = 1 := by
  unfold updateApproved
  cases hup : update_node env nid t c with
  | mk t3 ok => cases ok <;> simp

theorem updateWithNode_zero (env : Env) (nid : String) (t c : Option String)
    (node : NodeBody) (h : (updateWithNode env nid t c node).2 = 0) :
    Event.putReq nid { name := if strTruthy t then t else none,
                       content := if strTruthy c then c else none }
      ∈ (updateWithNode env nid t c node).1 ∧
    ∃ b, env.putApi nid { name := if strTruthy t then t else none,
                          content := if strTruthy c then c else none } =
           .resp 200 b := by
  unfold updateWithNode at h ⊢
  by_cases ht : strTruthy t = true <;> by_cases hc : strTruthy c = true <;>
    (try simp only [ht, hc, Bool.false_eq_true, ↓reduceIte] at h) <;>
    (try simp only [ht, hc, Bool.false_eq_true, ↓reduceIte]) <;>
    · split at h
      · simp at h
      · rename_i hcond
        rw [if_neg hcond]
        simp only at h
        obtain ⟨hmem, hex⟩ := updateApproved_zero env nid t c h
        simp only [ht, hc, Bool.false_eq_true, ↓reduceIte] at hmem hex ⊢
        refine ⟨?_, hex⟩
        simp [List.mem_append, hmem]

theorem updateWithNode_exit01 (env : Env) (nid : String) (t c : Option String)
    (node : NodeBody) :
    (updateWithNode env nid t c node).2 = 0 ∨
    (updateWithNode env nid t c node).2 = 1 := by
  unfold updateWithNode
  cases hup : updateApproved env nid t c with
  | mk t4 ec =>
    have h01 := updateApproved_exit01 env nid t c
    rw [hup] at h01
    simp only at h01
    by_cases ht : strTruthy t = true <;> by_cases hc : strTruthy c = true <;>
      simp only [ht, hc, Bool.false_eq_true, ↓reduceIte] <;>
      split <;>
      first
      | (simp; done)
      | exact h01

theorem runUpdate_zero (env : Env) (i : String) (t c : Option String)
    (h : (runUpdate env i t c).2 = 0) :
    ∃ j, Event.putReq j { name := if strTruthy t then t else none,
                          content := if strTruthy c then c else none }
           ∈ (runUpdate env i t c).1 ∧
         ∃ b, env.putApi j { name := if strTruthy t then t else none,
                             content := if strTruthy c then c else none } =
                .resp 200 b := by
  unfold runUpdate at h ⊢
  cases hres : resolveUpdateId env i with
  | mk tr r =>
    rw [hres] at h
    cases r with
    | none => simp at h
    | some nid =>
      dsimp only at h ⊢
      cases hdet : get_node_details env nid with
      | mk t2 nd =>
        rw [hdet] at h
        cases nd with
        | none => simp at h
        | some node =>
          dsimp only at h ⊢
          cases hupd : updateWithNode env nid t c node with
          | mk t5 ec =>
            rw [hupd] at h
            simp only at h
            subst h
            obtain ⟨hmem, hex⟩ := updateWithNode_zero env nid t c node (by rw [hupd])
            rw [hupd] at hmem
            simp only at hmem
            exact ⟨nid, by simp [List.mem_append, hmem], hex⟩

theorem runUpdate_exit01 (env : Env) (i : String) (t c : Option String) :
    (runUpdate env i t c).2 = 0 ∨ (runUpdate env i t c).2 = 1 := by
  unfold runUpdate
  cases hres : resolveUpdateId env i with
  | mk tr r =>
    cases r with
    | none => simp
    | some nid =>
      dsimp only
      cases hdet : get_node_details env nid with
      | mk t2 nd =>
        cases nd with
        | none => simp
        | some node =>
          dsimp only
          cases hupd : updateWithNode env nid t c node with
          | mk t5 ec =>
            have h01 := updateWithNode_exit01 env nid t c node
            rw [hupd] at h01
            simpa using h01

theorem runDelete_zero (env : Env) (i : String)
    (h : (runDelete env i).2 = 0) :
    Event.deleteReq i ∈ (runDelete env i).1 ∧
    ∃ b, env.deleteApi i = .resp 200 b := by
  unfold runDelete at h ⊢
  cases hdet : get_node_details env i with
  | mk t1 nd =>
    rw [hdet] at h
    cases nd with
    | none => simp at h
    | some node =>
      dsimp only at h ⊢
      cases hdel : delete_node env i with
      | mk t2 ok =>
        rw [hdel] at h
        cases hf : node.is_folder <;> cases ok <;>
          simp only [hf, Bool.false_eq_true, ↓reduceIte] at h ⊢ <;>
          · split at h
            · simp at h
            · rename_i hcond
              rw [if_neg hcond]
              simp only at h
              first
              | exact (Nat.one_ne_zero h).elim
              | · obtain ⟨hmem, hex⟩ := delete_node_true env i (by rw [hdel])
                  rw [hdel] at hmem
                  simp only at hmem
                  refine ⟨?_, hex⟩
                  simp [List.mem_append, hmem]

theorem runDelete_exit01 (env : Env) (i : String) :
    (runDelete env i).2 = 0 ∨ (runDelete env i).2 = 1 := by
  unfold runDelete
  cases hdet : get_node_details env i with
  | mk t1 nd =>
    cases nd with
    | none => simp
    | some node =>
      dsimp only
      cases hdel : delete_node env i with
      | mk t2 ok =>
        cases hf : node.is_folder <;> cases ok <;>
          simp only [hf, Bool.false_eq_true, ↓reduceIte] <;>
          split <;> simp

theorem runSearch_exit (env : Env) (q : String) : (runSearch env q).2 = 0 := by
  unfold runSearch
  cases hs : search_knowledge env q with
  | mk t r =>
    by_cases hr : r.isEmpty = true <;> simp [hr]

theorem runBrowse_exit (env : Env) (p : String) : (runBrowse env p).2 = 0 := by
  unfold runBrowse
  cases hb : browse_knowledge env p with
  | mk t r =>
    cases r with
    | none => simp
    | some body => simp

theorem runCreate_exit_eq (env : Env) (pp t c : String) :
    (runCreate env pp t c).2 =
      (if env.approve ("Create knowledge article: " ++ t)
            [("Parent Path", pp), ("Title", t),
             ("Content Length", toString c.length ++ " characters"),
             ("Action", "Create new article in KnowledgeTree")] &&
          strTruthy (create_node env pp t c false).2
       then 0 else 1) := by
  unfold runCreate
  cases hcr : create_node env pp t c false with
  | mk t2 nid =>
    cases happ : env.approve ("Create knowledge article: " ++ t)
        [("Parent Path", pp), ("Title", t),
         ("Content Length", toString c.length ++ " characters"),
         ("Action", "Create new article in KnowledgeTree")]
    · simp [happ]
    · by_cases hs : strTruthy nid = true <;> simp [happ, hs]

theorem runCreateFolder_exit_eq (env : Env) (pp n : String) :
    (runCreateFolder env pp n).2 =
      (if env.approve ("Create knowledge folder: " ++ n)
            [("Parent Path", pp), ("Folder Name", n),
             ("Action", "Create new folder in KnowledgeTree")] &&
          strTruthy (create_node env pp n "" true).2
       then 0 else 1) := by
  unfold runCreateFolder
  cases hcr : create_node env pp n "" true with
  | mk t2 nid =>
    cases happ : env.approve ("Create knowledge folder: " ++ n)
        [("Parent Path", pp), ("Folder Name", n),
         ("Action", "Create new folder in KnowledgeTree")]
    · simp [happ]
    · by_cases hs : strTruthy nid = true <;> simp [happ, hs]

/-- Amended **C5**: every run exits 0 or 1; the mutating commands exit 0
exactly on success — `create`/`create-folder` exit 0 iff approval was
granted and the operation returned a truthy identifier, `update`/`delete`
exit 0 only when the mutating request was issued and answered 200, exit 1
on a denied approval, and `update` exits 1 on the local validation failure
(neither field truthy).  The `search` and `browse` commands, however,
always exit 0 — even when the remote request fails, the failure is only
printed (see the counterexample). -/
theorem c5_exit_codes_amended (env : Env) (q p pp t c n i : String)
    (ot oc : Option String) :
    (runMain env (Cmd.search q)).2 = 0 ∧
    (runMain env (Cmd.browse p)).2 = 0 ∧
    (runMain env (Cmd.create pp t c)).2 =
      (if env.approve ("Create knowledge article: " ++ t)
            [("Parent Path", pp), ("Title", t),
             ("Content Length", toString c.length ++ " characters"),
             ("Action", "Create new article in KnowledgeTree")] &&
          strTruthy (create_node env pp t c false).2
       then 0 else 1) ∧
    (runMain env (Cmd.createFolder pp n)).2 =
      (if env.approve ("Create knowledge folder: " ++ n)
            [("Parent Path", pp), ("Folder Name", n),
             ("Action", "Create new folder in KnowledgeTree")] &&
          strTruthy (create_node env pp n "" true).2
       then 0 else 1) ∧
    ((runMain env (Cmd.update i ot oc)).2 = 0 ∨
     (runMain env (Cmd.update i ot oc)).2 = 1) ∧
    ((runMain env (Cmd.update i ot oc)).1.countP isDenied ≠ 0 →
      (runMain env (Cmd.update i ot oc)).2 = 1) ∧
    (strTruthy ot = false → strTruthy oc = false →
      (runMain env (Cmd.update i ot oc)).2 = 1) ∧
    ((runMain env (Cmd.update i ot oc)).2 = 0 →
      ∃ j, Event.putReq j { name := if strTruthy ot then ot else none,
                            content := if strTruthy oc then oc else none }
             ∈ (runMain env (Cmd.update i ot oc)).1 ∧
           ∃ b, env.putApi j { name := if strTruthy ot then ot else none,
                               content := if strTruthy oc then oc else none } =
                  .resp 200 b) ∧
    ((runMain env (Cmd.delete i)).2 = 0 ∨ (runMain env (Cmd.delete i)).2 = 1) ∧
    ((runMain env (Cmd.delete i)).1.countP isDenied ≠ 0 →
      (runMain env (Cmd.delete i)).2 = 1) ∧
    ((runMain env (Cmd.delete i)).2 = 0 →
      Event.deleteReq i ∈ (runMain env (Cmd.delete i)).1 ∧
      ∃ b, env.deleteApi i = .resp 200 b) := by
  refine ⟨runSearch_exit env q, runBrowse_exit env p,
          runCreate_exit_eq env pp t c, runCreateFolder_exit_eq env pp n,
          runUpdate_exit01 env i ot oc, ?_, ?_, runUpdate_zero env i ot oc,
          runDelete_exit01 env i, ?_, runDelete_zero env i⟩
  · intro hden
    rcases runUpdate_exit01 env i ot oc with h0 | h1
    · exact absurd h0 (fun h0 => ((runUpdate_gate env i ot oc).2.2 hden).2 h0)
    · exact h1
  · intro h1 h2
    exact (runUpdate_no_fields env i ot oc h1 h2).1
  · intro hden
    rcases runDelete_exit01 env i with h0 | h1
    · exact absurd h0 (fun h0 => ((runDelete_gate env i).2.2 hden).2 h0)
    · exact h1

/-- Witness for **C5** (amended) at concrete commands in the cooperative
world. -/
theorem c5_exit_codes_amended_witness :
    (runMain envOk (Cmd.search "q")).2 = 0 ∧
    (runMain envOk (Cmd.browse "/")).2 = 0 ∧
    (runMain envOk (Cmd.create "/" "T" "x")).2 =
      (if envOk.approve ("Create knowledge article: " ++ "T")
            [("Parent Path", "/"), ("Title", "T"),
             ("Content Length", toString "x".length ++ " characters"),
             ("Action", "Create new article in KnowledgeTree")] &&
          strTruthy (create_node envOk "/" "T" "x" false).2
       then 0 else 1) ∧
    (runMain envOk (Cmd.createFolder "/" "F")).2 =
      (if envOk.approve ("Create knowledge folder: " ++ "F")
            [("Parent Path", "/"), ("Folder Name", "F"),
             ("Action", "Create new folder in KnowledgeTree")] &&
          strTruthy (create_node envOk "/" "F" "" true).2
       then 0 else 1) ∧
    ((runMain envOk (Cmd.update "n1" (some "T") none)).2 = 0 ∨
     (runMain envOk (Cmd.update "n1" (some "T") none)).2 = 1) ∧
    ((runMain envOk (Cmd.update "n1" (some "T") none)).1.countP isDenied ≠ 0 →
      (runMain envOk (Cmd.update "n1" (some "T") none)).2 = 1) ∧
    (strTruthy (some "T") = false → strTruthy (none : Option String) = false →
      (runMain envOk (Cmd.update "n1" (some "T") none)).2 = 1) ∧
    ((runMain envOk (Cmd.update "n1" (some "T") none)).2 = 0 →
      ∃ j, Event.putReq j { name := if strTruthy (some "T") then some "T" else none,
                            content := if strTruthy (none : Option String) then none else none }
             ∈ (runMain envOk (Cmd.update "n1" (some "T") none)).1 ∧
           ∃ b, envOk.putApi j { name := if strTruthy (some "T") then some "T" else none,
                                 content := if strTruthy (none : Option String) then none else none } =
                  .resp 200 b) ∧
    ((runMain envOk (Cmd.delete "n1")).2 = 0 ∨
     (runMain envOk (Cmd.delete "n1")).2 = 1) ∧
    ((runMain envOk (Cmd.delete "n1")).1.countP isDenied ≠ 0 →
      (runMain envOk (Cmd.delete "n1")).2 = 1) ∧
    ((runMain envOk (Cmd.delete "n1")).2 = 0 →
      Event.deleteReq "n1" ∈ (runMain envOk (Cmd.delete "n1")).1 ∧
      ∃ b, envOk.deleteApi "n1" = .resp 200 b) :=
  c5_exit_codes_amended envOk "q" "/" "/" "T" "x" "F" "n1" (some "T") none
